import Mathlib

/-!
Shallow embedding of the plugin pipeline orchestration in
`alerta/utils/api.py` (functions `process_alert`, `process_action`,
`process_note`, `process_status`, `process_delete`).

Python exceptions are modelled as an explicit `Exc` type; a plugin hook is a
function returning `Except Exc result`.  Each pipeline returns
`Except Err result × List Event`, where the event list is the observable
trace of the run: every hook invocation (with the call shape used), every
alert-model operation, and every diagnostic log record, in order.

The exception class hierarchy lives in `alerta/exceptions.py`, which is not
part of the sources here; following the spec, the domain control signals
(reject, heartbeat, blackout, rate-limit, forwarding-loop, invalid-action and
any other recognized domain condition) are all subclasses of the base
`AlertaException`, so any `except` tuple that lists `AlertaException` catches
every control signal.  They are therefore modelled as one `Exc.control`
constructor carrying the specific kind.
-/

namespace Alerta

/-- The alert record, with the fields the pipelines read or write:
the suppressed flag (`alert.is_suppressed`), tags and attributes. -/
structure Alert where
  id : Nat
  is_suppressed : Bool
  tags : List String
  attributes : List (String × String)
deriving DecidableEq, Repr

/-- The specific domain control-signal conditions
(`RejectException`, `HeartbeatReceived`, `BlackoutPeriod`, `RateLimit`,
`ForwardingLoop`, `InvalidAction`, or any other `AlertaException`). -/
inductive ControlKind where
  | reject
  | heartbeatReceived
  | blackoutPeriod
  | rateLimit
  | forwardingLoop
  | invalidAction
  | alertaOther
deriving DecidableEq, Repr

/-- A Python exception raised by a plugin hook or a model operation:
`TypeError` (the arity-mismatch case the fallback is for), a missing hook
(`NotImplementedError`), a domain control signal, or any other exception. -/
inductive Exc where
  | typeErr (msg : String)
  | notImpl
  | control (kind : ControlKind) (msg : String)
  | generic (msg : String)
deriving DecidableEq, Repr

/-- `str(e)` of an exception, as interpolated into wrapped error messages. -/
def excMsg : Exc → String
  | .typeErr m => m
  | .notImpl => ""
  | .control _ m => m
  | .generic m => m

/-- An error a pipeline run terminates with: a plugin exception propagating
unchanged (a re-raised control signal, or an uncaught exception from a
fallback call), the `RuntimeError` raised by strict pre-receive handling, an
`ApiError`, or the `SyntaxError` raised when a pre-receive hook returns a
falsy alert (a protocol violation). -/
inductive Err where
  | exc (e : Exc)
  | runtimeError (msg : String)
  | apiError (msg : String)
  | protocolViolation (msg : String)
deriving DecidableEq, Repr

/-- One observable event of a pipeline run. -/
inductive Event where
  | hookCall (hook plug : String) (withConfig : Bool)
  | logError (msg : String)
  | isDuplicateOp
  | deduplicateOp
  | isCorrelatedOp
  | updateOp
  | createOp
  | updateTagsOp
  | updateAttributesOp
  | deleteOp
deriving DecidableEq, Repr

/-- The opaque per-resolution configuration blob passed to plugins. -/
def Config := List (String × String)

/-- What a `take_action` hook returns: `None` (or any other falsy
non-Alert/non-tuple value), a bare `Alert`, a 4-tuple, a 3-tuple, or a tuple
of any other length (which sets the mutated flag without assigning). -/
inductive ActionRet where
  | noneRet
  | alertRet (a : Alert)
  | tuple4 (a : Alert) (action text : String) (timeout : Option Int)
  | tuple3 (a : Alert) (action text : String)
  | tupleOther
deriving DecidableEq, Repr

/-- What a `take_note` hook returns: `None`, a bare `Alert`, a 2-tuple, or a
tuple of another length (which is ignored entirely). -/
inductive NoteRet where
  | noneRet
  | alertRet (a : Alert)
  | tuple2 (a : Alert) (text : String)
  | tupleOther
deriving DecidableEq, Repr

/-- What a `status_change` hook returns: a falsy value, an unpackable
3-tuple, or any other truthy value (assigned wholesale to `alert` after the
unpacking attempt fails). -/
inductive StatusRet where
  | noneRet
  | tuple3 (a : Alert) (status text : String)
  | other (a : Alert)
deriving DecidableEq, Repr

/-- A registered plugin: a name and the hook methods the five pipelines
invoke.  The `_cfg` field is the behaviour of the canonical call (all
arguments plus `config=...`); the `_nocfg` field is the behaviour of the
reduced backward-compatibility call for the hooks that have that fallback. -/
structure Plugin where
  name : String
  pre_receive_cfg : Config → Alert → Except Exc (Option Alert)
  pre_receive_nocfg : Alert → Except Exc (Option Alert)
  post_receive_cfg : Config → Alert → Except Exc (Option Alert)
  post_receive_nocfg : Alert → Except Exc (Option Alert)
  take_action : Config → Alert → String → String → Option Int → Except Exc ActionRet
  take_note : Config → Alert → String → Except Exc NoteRet
  status_change_cfg : Config → Alert → String → String → Except Exc StatusRet
  status_change_nocfg : Alert → String → String → Except Exc StatusRet
  delete : Config → Alert → Except Exc Bool

/-- The pipelines' collaborators: the strict/lenient policy flag
(`PLUGINS_RAISE_ON_ERROR`), the plugin router (`plugins.routing`), and the
alert-model operations. -/
structure Env where
  strict : Bool
  routing : Alert → List Plugin × Config
  is_duplicate : Alert → Except Exc (Option Alert)
  deduplicate : Alert → Alert → Except Exc Alert
  is_correlated : Alert → Except Exc (Option Alert)
  update : Alert → Alert → Except Exc Alert
  create : Alert → Except Exc Alert
  update_attributes : Alert → List (String × String) → List (String × String)
  delete_op : Alert → Bool

/-- The message of the wrapped error for a generic plugin fault:
`Error while running <stage> plugin '<name>': <str(e)>`. -/
def errMsg (stage name emsg : String) : String :=
  "Error while running " ++ stage ++ " plugin " ++ "'" ++ name ++ "'" ++ ": " ++ emsg

/-- The `SyntaxError` message when a pre-receive hook returns a falsy alert. -/
def preReceiveNoneMsg (name : String) : String :=
  "Plugin " ++ "'" ++ name ++ "'" ++ " pre-receive hook did not return modified alert"

/-- One pre-receive plugin iteration of `process_alert` (lines 40-52):
the canonical call, the `TypeError` fallback (whose own exceptions propagate
uncaught), control-signal re-raise, policy-dependent generic-fault handling,
and the falsy-alert protocol check. -/
def preStep (env : Env) (cfg : Config) (p : Plugin) (a : Alert) :
    Except Err Alert × List Event :=
  let callEv := Event.hookCall "pre_receive" p.name true
  let fallbackEv := Event.hookCall "pre_receive" p.name false
  let checkAlert : Option Alert → List Event → Except Err Alert × List Event :=
    fun r tr =>
      match r with
      | some a2 => (.ok a2, tr)
      | none => (.error (.protocolViolation (preReceiveNoneMsg p.name)), tr)
  match p.pre_receive_cfg cfg a with
  | .ok r => checkAlert r [callEv]
  | .error (.typeErr _) =>
    match p.pre_receive_nocfg a with
    | .ok r => checkAlert r [callEv, fallbackEv]
    | .error e => (.error (.exc e), [callEv, fallbackEv])
  | .error (.control k m) => (.error (.exc (.control k m)), [callEv])
  | .error e =>
    if env.strict then
      (.error (.runtimeError (errMsg "pre-receive" p.name (excMsg e))), [callEv])
    else
      (.ok a, [callEv, .logError (errMsg "pre-receive" p.name (excMsg e))])

/-- The pre-receive loop of `process_alert` (lines 35-52), including the
per-iteration suppressed-flag break that sets `skip_plugins`.  Returns the
running alert and the `skip_plugins` flag. -/
def preLoop (env : Env) (cfg : Config) :
    List Plugin → Alert → Except Err (Alert × Bool) × List Event
  | [], a => (.ok (a, false), [])
  | p :: rest, a =>
    if a.is_suppressed then (.ok (a, true), [])
    else
      match preStep env cfg p a with
      | (.ok a2, tr) =>
        let r := preLoop env cfg rest a2
        (r.1, tr ++ r.2)
      | (.error e, tr) => (.error e, tr)

/-- The lifecycle-resolution stage of `process_alert` (lines 54-65):
duplicate check / deduplicate, else correlation check / update, else create;
any exception from the stage is wrapped into `ApiError(str(e))`. -/
def lifecycle (env : Env) (a : Alert) : Except Err Alert × List Event :=
  match env.is_duplicate a with
  | .error e => (.error (.apiError (excMsg e)), [.isDuplicateOp])
  | .ok (some dup) =>
    match env.deduplicate a dup with
    | .error e => (.error (.apiError (excMsg e)), [.isDuplicateOp, .deduplicateOp])
    | .ok a2 => (.ok a2, [.isDuplicateOp, .deduplicateOp])
  | .ok none =>
    match env.is_correlated a with
    | .error e => (.error (.apiError (excMsg e)), [.isDuplicateOp, .isCorrelatedOp])
    | .ok (some corr) =>
      match env.update a corr with
      | .error e =>
        (.error (.apiError (excMsg e)), [.isDuplicateOp, .isCorrelatedOp, .updateOp])
      | .ok a2 => (.ok a2, [.isDuplicateOp, .isCorrelatedOp, .updateOp])
    | .ok none =>
      match env.create a with
      | .error e =>
        (.error (.apiError (excMsg e)), [.isDuplicateOp, .isCorrelatedOp, .createOp])
      | .ok a2 => (.ok a2, [.isDuplicateOp, .isCorrelatedOp, .createOp])

/-- One post-receive plugin iteration of `process_alert` (lines 73-87):
canonical call, `TypeError` fallback, `AlertaException` re-raise (which by
the modelled hierarchy covers every control signal), policy-dependent
generic-fault handling.  Returns the `updated` value. -/
def postStep (env : Env) (cfg : Config) (p : Plugin) (a : Alert) :
    Except Err (Option Alert) × List Event :=
  let callEv := Event.hookCall "post_receive" p.name true
  let fallbackEv := Event.hookCall "post_receive" p.name false
  match p.post_receive_cfg cfg a with
  | .ok r => (.ok r, [callEv])
  | .error (.typeErr _) =>
    match p.post_receive_nocfg a with
    | .ok r => (.ok r, [callEv, fallbackEv])
    | .error e => (.error (.exc e), [callEv, fallbackEv])
  | .error (.control k m) => (.error (.exc (.control k m)), [callEv])
  | .error e =>
    if env.strict then
      (.error (.apiError (errMsg "post-receive" p.name (excMsg e))), [callEv])
    else
      (.ok none, [callEv, .logError (errMsg "post-receive" p.name (excMsg e))])

/-- The post-receive loop of `process_alert` (lines 69-87): breaks on
`skip_plugins`; a truthy `updated` replaces the alert and sets
`alert_was_updated`. -/
def postLoop (env : Env) (cfg : Config) (skip : Bool) :
    List Plugin → Alert → Bool → Except Err (Alert × Bool) × List Event
  | [], a, upd => (.ok (a, upd), [])
  | p :: rest, a, upd =>
    if skip then (.ok (a, upd), [])
    else
      match postStep env cfg p a with
      | (.ok (some a2), tr) =>
        let r := postLoop env cfg skip rest a2 true
        (r.1, tr ++ r.2)
      | (.ok none, tr) =>
        let r := postLoop env cfg skip rest a upd
        (r.1, tr ++ r.2)
      | (.error e, tr) => (.error e, tr)

/-- `process_alert` (lines 31-93): pre-receive loop, lifecycle resolution,
re-resolved routing, post-receive loop, and the conditional resync of tags
and attributes (the attributes field is reassigned from
`update_attributes`). -/
def process_alert (env : Env) (alert : Alert) : Except Err Alert × List Event :=
  let route := env.routing alert
  match preLoop env route.2 route.1 alert with
  | (.error e, tr) => (.error e, tr)
  | (.ok (a1, skip), tr1) =>
    match lifecycle env a1 with
    | (.error e, tr2) => (.error e, tr1 ++ tr2)
    | (.ok a2, tr2) =>
      let route2 := env.routing a2
      match postLoop env route2.2 skip route2.1 a2 false with
      | (.error e, tr3) => (.error e, tr1 ++ tr2 ++ tr3)
      | (.ok (a3, upd), tr3) =>
        if upd then
          (.ok { a3 with attributes := env.update_attributes a3 a3.attributes },
            tr1 ++ tr2 ++ tr3 ++ [.updateTagsOp, .updateAttributesOp])
        else (.ok a3, tr1 ++ tr2 ++ tr3)

/-- The running state of `process_action`: the alert, the action name, the
text, the timeout and the `alert_was_updated` flag. -/
structure ActionState where
  alert : Alert
  action : String
  text : String
  timeout : Option Int
  updated : Bool
deriving DecidableEq, Repr

/-- Result normalization of `process_action` (lines 117-124): a bare alert
is sugar for the 4-tuple with the current auxiliary fields; a 4-tuple
replaces all running fields; a 3-tuple replaces alert, action and text,
leaving the timeout; any tuple of another length only sets the flag. -/
def normalizeAction (st : ActionState) : ActionRet → ActionState
  | .noneRet => st
  | .alertRet a => { st with alert := a, updated := true }
  | .tuple4 a act tx tmo =>
    { alert := a, action := act, text := tx, timeout := tmo, updated := true }
  | .tuple3 a act tx => { st with alert := a, action := act, text := tx, updated := true }
  | .tupleOther => { st with updated := true }

/-- One plugin iteration of `process_action` (lines 104-124): canonical call
only (there is no `TypeError` fallback here), `NotImplementedError` skip,
control-signal re-raise, policy-dependent generic-fault handling, then
result normalization. -/
def actionStep (env : Env) (cfg : Config) (p : Plugin) (st : ActionState) :
    Except Err ActionState × List Event :=
  let callEv := Event.hookCall "take_action" p.name true
  match p.take_action cfg st.alert st.action st.text st.timeout with
  | .ok r => (.ok (normalizeAction st r), [callEv])
  | .error .notImpl => (.ok st, [callEv])
  | .error (.control k m) => (.error (.exc (.control k m)), [callEv])
  | .error e =>
    if env.strict then
      (.error (.apiError (errMsg "action" p.name (excMsg e))), [callEv])
    else
      (.ok st, [callEv, .logError (errMsg "action" p.name (excMsg e))])

/-- The plugin loop of `process_action` (lines 101-124), with the
per-iteration suppressed-flag break. -/
def actionLoop (env : Env) (cfg : Config) :
    List Plugin → ActionState → Except Err ActionState × List Event
  | [], st => (.ok st, [])
  | p :: rest, st =>
    if st.alert.is_suppressed then (.ok st, [])
    else
      match actionStep env cfg p st with
      | (.ok st2, tr) =>
        let r := actionLoop env cfg rest st2
        (r.1, tr ++ r.2)
      | (.error e, tr) => (.error e, tr)

/-- `process_action` (lines 96-130): routing, plugin loop, conditional
resync (attributes reassigned from `update_attributes`). -/
def process_action (env : Env) (alert : Alert) (action text : String)
    (timeout : Option Int) :
    Except Err (Alert × String × String × Option Int) × List Event :=
  let route := env.routing alert
  match actionLoop env route.2 route.1 ⟨alert, action, text, timeout, false⟩ with
  | (.error e, tr) => (.error e, tr)
  | (.ok st, tr) =>
    if st.updated then
      (.ok ({ st.alert with attributes := env.update_attributes st.alert st.alert.attributes },
          st.action, st.text, st.timeout),
        tr ++ [.updateTagsOp, .updateAttributesOp])
    else (.ok (st.alert, st.action, st.text, st.timeout), tr)

/-- The running state of `process_note`. -/
structure NoteState where
  alert : Alert
  text : String
  updated : Bool
deriving DecidableEq, Repr

/-- Result normalization of `process_note` (lines 152-156): a bare alert is
sugar for the 2-tuple with the current text; only a 2-tuple assigns and sets
the flag; any other tuple is ignored entirely. -/
def normalizeNote (st : NoteState) : NoteRet → NoteState
  | .noneRet => st
  | .alertRet a => { st with alert := a, updated := true }
  | .tuple2 a tx => { alert := a, text := tx, updated := true }
  | .tupleOther => st

/-- One plugin iteration of `process_note` (lines 139-156): canonical call
only, `NotImplementedError` skip, control-signal re-raise, policy-dependent
generic-fault handling, then result normalization. -/
def noteStep (env : Env) (cfg : Config) (p : Plugin) (st : NoteState) :
    Except Err NoteState × List Event :=
  let callEv := Event.hookCall "take_note" p.name true
  match p.take_note cfg st.alert st.text with
  | .ok r => (.ok (normalizeNote st r), [callEv])
  | .error .notImpl => (.ok st, [callEv])
  | .error (.control k m) => (.error (.exc (.control k m)), [callEv])
  | .error e =>
    if env.strict then
      (.error (.apiError (errMsg "note" p.name (excMsg e))), [callEv])
    else
      (.ok st, [callEv, .logError (errMsg "note" p.name (excMsg e))])

/-- The plugin loop of `process_note` (lines 138-156): no suppressed-flag
break. -/
def noteLoop (env : Env) (cfg : Config) :
    List Plugin → NoteState → Except Err NoteState × List Event
  | [], st => (.ok st, [])
  | p :: rest, st =>
    match noteStep env cfg p st with
    | (.ok st2, tr) =>
      let r := noteLoop env cfg rest st2
      (r.1, tr ++ r.2)
    | (.error e, tr) => (.error e, tr)

/-- `process_note` (lines 133-162): routing, plugin loop, conditional
resync.  Note that `update_attributes` is called but its return value is
discarded: the alert's attributes field is not reassigned. -/
def process_note (env : Env) (alert : Alert) (text : String) :
    Except Err (Alert × String) × List Event :=
  let route := env.routing alert
  match noteLoop env route.2 route.1 ⟨alert, text, false⟩ with
  | (.error e, tr) => (.error e, tr)
  | (.ok st, tr) =>
    if st.updated then
      (.ok (st.alert, st.text), tr ++ [.updateTagsOp, .updateAttributesOp])
    else (.ok (st.alert, st.text), tr)

/-- The running state of `process_status`. -/
structure StatusState where
  alert : Alert
  status : String
  text : String
  updated : Bool
deriving DecidableEq, Repr

/-- Result normalization of `process_status` (lines 185-190): a truthy
result sets the flag; an unpackable 3-tuple assigns all three fields; any
other truthy value is assigned wholesale to the alert. -/
def normalizeStatus (st : StatusState) : StatusRet → StatusState
  | .noneRet => st
  | .tuple3 a s t => { alert := a, status := s, text := t, updated := true }
  | .other a => { st with alert := a, updated := true }

/-- One plugin iteration of `process_status` (lines 173-190): canonical
call, `TypeError` fallback (whose own exceptions propagate uncaught),
control-signal re-raise, policy-dependent generic-fault handling, then
result normalization. -/
def statusStep (env : Env) (cfg : Config) (p : Plugin) (st : StatusState) :
    Except Err StatusState × List Event :=
  let callEv := Event.hookCall "status_change" p.name true
  let fallbackEv := Event.hookCall "status_change" p.name false
  match p.status_change_cfg cfg st.alert st.status st.text with
  | .ok r => (.ok (normalizeStatus st r), [callEv])
  | .error (.typeErr _) =>
    match p.status_change_nocfg st.alert st.status st.text with
    | .ok r => (.ok (normalizeStatus st r), [callEv, fallbackEv])
    | .error e => (.error (.exc e), [callEv, fallbackEv])
  | .error (.control k m) => (.error (.exc (.control k m)), [callEv])
  | .error e =>
    if env.strict then
      (.error (.apiError (errMsg "status" p.name (excMsg e))), [callEv])
    else
      (.ok st, [callEv, .logError (errMsg "status" p.name (excMsg e))])

/-- The plugin loop of `process_status` (lines 170-190), with the
per-iteration suppressed-flag break. -/
def statusLoop (env : Env) (cfg : Config) :
    List Plugin → StatusState → Except Err StatusState × List Event
  | [], st => (.ok st, [])
  | p :: rest, st =>
    if st.alert.is_suppressed then (.ok st, [])
    else
      match statusStep env cfg p st with
      | (.ok st2, tr) =>
        let r := statusLoop env cfg rest st2
        (r.1, tr ++ r.2)
      | (.error e, tr) => (.error e, tr)

/-- `process_status` (lines 165-196): routing, plugin loop, conditional
resync (attributes reassigned from `update_attributes`). -/
def process_status (env : Env) (alert : Alert) (status text : String) :
    Except Err (Alert × String × String) × List Event :=
  let route := env.routing alert
  match statusLoop env route.2 route.1 ⟨alert, status, text, false⟩ with
  | (.error e, tr) => (.error e, tr)
  | (.ok st, tr) =>
    if st.updated then
      (.ok ({ st.alert with attributes := env.update_attributes st.alert st.alert.attributes },
          st.status, st.text),
        tr ++ [.updateTagsOp, .updateAttributesOp])
    else (.ok (st.alert, st.status, st.text), tr)

/-- One plugin iteration of `process_delete` (lines 205-215):
`delete = delete and plugin.delete(alert, config=wanted_config)`.  Python's
`and` short-circuits: when the running verdict is already false the hook is
not invoked at all and nothing can be raised.  Otherwise:
`NotImplementedError` skip (the verdict keeps its previous value),
control-signal re-raise, policy-dependent generic-fault handling. -/
def deleteStep (env : Env) (cfg : Config) (p : Plugin) (a : Alert) (del : Bool) :
    Except Err Bool × List Event :=
  if del then
    let callEv := Event.hookCall "delete" p.name true
    match p.delete cfg a with
    | .ok b => (.ok b, [callEv])
    | .error .notImpl => (.ok del, [callEv])
    | .error (.control k m) => (.error (.exc (.control k m)), [callEv])
    | .error e =>
      if env.strict then
        (.error (.apiError (errMsg "delete" p.name (excMsg e))), [callEv])
      else
        (.ok del, [callEv, .logError (errMsg "delete" p.name (excMsg e))])
  else (.ok false, [])

/-- The plugin loop of `process_delete` (lines 204-215). -/
def deleteLoop (env : Env) (cfg : Config) (a : Alert) :
    List Plugin → Bool → Except Err Bool × List Event
  | [], del => (.ok del, [])
  | p :: rest, del =>
    match deleteStep env cfg p a del with
    | (.ok del2, tr) =>
      let r := deleteLoop env cfg a rest del2
      (r.1, tr ++ r.2)
    | (.error e, tr) => (.error e, tr)

/-- `process_delete` (lines 199-217): routing, plugin loop, then
`return delete and alert.delete()` — the model's `delete()` is invoked only
when the combined verdict is still true. -/
def process_delete (env : Env) (alert : Alert) : Except Err Bool × List Event :=
  let route := env.routing alert
  match deleteLoop env route.2 alert route.1 true with
  | (.error e, tr) => (.error e, tr)
  | (.ok del, tr) =>
    if del then (.ok (env.delete_op alert), tr ++ [.deleteOp])
    else (.ok false, tr)

/-- Events produced by the plugin loops themselves: hook invocations and
diagnostic log records. -/
def isPluginEvent : Event → Bool
  | .hookCall _ _ _ => true
  | .logError _ => true
  | _ => false

/-- The two resync operations (`update_tags` / `update_attributes`). -/
def isResyncEvent : Event → Bool
  | .updateTagsOp => true
  | .updateAttributesOp => true
  | _ => false

/-- The lifecycle-resolution model operations. -/
def isLifecycleEvent : Event → Bool
  | .isDuplicateOp => true
  | .deduplicateOp => true
  | .isCorrelatedOp => true
  | .updateOp => true
  | .createOp => true
  | _ => false

theorem pluginEvents_no_resync (tr : List Event) (h : tr.all isPluginEvent = true) :
    tr.all (fun e => !(isResyncEvent e)) = true := by
  rw [List.all_eq_true] at *
  intro e he
  have he2 := h e he
  cases e <;> simp_all [isPluginEvent, isResyncEvent]

theorem pluginEvents_no_lifecycle (tr : List Event) (h : tr.all isPluginEvent = true) :
    tr.all (fun e => !(isLifecycleEvent e)) = true := by
  rw [List.all_eq_true] at *
  intro e he
  have he2 := h e he
  cases e <;> simp_all [isPluginEvent, isLifecycleEvent]

theorem lifecycleEvents_no_resync (tr : List Event) (h : tr.all isLifecycleEvent = true) :
    tr.all (fun e => !(isResyncEvent e)) = true := by
  rw [List.all_eq_true] at *
  intro e he
  have he2 := h e he
  cases e <;> simp_all [isLifecycleEvent, isResyncEvent]

theorem preStep_events (env : Env) (cfg : Config) (p : Plugin) (a : Alert) :
    ((preStep env cfg p a).2).all isPluginEvent = true := by
  unfold preStep
  cases hc : p.pre_receive_cfg cfg a with
  | ok r => cases r <;> simp [isPluginEvent]
  | error e =>
    cases e with
    | typeErr m =>
      cases hf : p.pre_receive_nocfg a with
      | ok r => cases r <;> simp [isPluginEvent]
      | error e2 => simp [isPluginEvent]
    | notImpl => cases hs : env.strict <;> simp [hs, isPluginEvent]
    | control k m => simp [isPluginEvent]
    | generic m => cases hs : env.strict <;> simp [hs, isPluginEvent]

theorem preLoop_events (env : Env) (cfg : Config) :
    ∀ (ps : List Plugin) (a : Alert),
      ((preLoop env cfg ps a).2).all isPluginEvent = true := by
  intro ps
  induction ps with
  | nil => intro a; simp [preLoop]
  | cons p rest ih =>
    intro a
    cases hs : a.is_suppressed with
    | true => simp [preLoop, hs]
    | false =>
      have hev := preStep_events env cfg p a
      cases hstep : preStep env cfg p a with
      | mk r tr =>
        rw [hstep] at hev
        cases r with
        | ok a2 => simp [preLoop, hs, hstep, List.all_append, hev, ih]
        | error e => simp [preLoop, hs, hstep, hev]

theorem postStep_events (env : Env) (cfg : Config) (p : Plugin) (a : Alert) :
    ((postStep env cfg p a).2).all isPluginEvent = true := by
  unfold postStep
  cases hc : p.post_receive_cfg cfg a with
  | ok r => simp [isPluginEvent]
  | error e =>
    cases e with
    | typeErr m =>
      cases hf : p.post_receive_nocfg a with
      | ok r => simp [isPluginEvent]
      | error e2 => simp [isPluginEvent]
    | notImpl => cases hs : env.strict <;> simp [hs, isPluginEvent]
    | control k m => simp [isPluginEvent]
    | generic m => cases hs : env.strict <;> simp [hs, isPluginEvent]

theorem postLoop_events (env : Env) (cfg : Config) (skip : Bool) :
    ∀ (ps : List Plugin) (a : Alert) (upd : Bool),
      ((postLoop env cfg skip ps a upd).2).all isPluginEvent = true := by
  intro ps
  induction ps with
  | nil => intro a upd; simp [postLoop]
  | cons p rest ih =>
    intro a upd
    cases hsk : skip with
    | true => simp [postLoop, hsk]
    | false =>
      subst hsk
      have hev := postStep_events env cfg p a
      cases hstep : postStep env cfg p a with
      | mk r tr =>
        rw [hstep] at hev
        cases r with
        | ok o =>
          cases o with
          | some a2 => simp [postLoop, hstep, List.all_append, hev, ih]
          | none => simp [postLoop, hstep, List.all_append, hev, ih]
        | error e => simp [postLoop, hstep, hev]

theorem lifecycle_events (env : Env) (a : Alert) :
    ((lifecycle env a).2).all isLifecycleEvent = true := by
  unfold lifecycle
  cases hd : env.is_duplicate a with
  | error e => simp [isLifecycleEvent]
  | ok o =>
    cases o with
    | some dup =>
      cases hdd : env.deduplicate a dup <;> simp [hdd, isLifecycleEvent]
    | none =>
      cases hc : env.is_correlated a with
      | error e => simp [isLifecycleEvent]
      | ok o2 =>
        cases o2 with
        | some corr => cases hu : env.update a corr <;> simp [hu, isLifecycleEvent]
        | none => cases hcr : env.create a <;> simp [hcr, isLifecycleEvent]

theorem actionStep_events (env : Env) (cfg : Config) (p : Plugin) (st : ActionState) :
    ((actionStep env cfg p st).2).all isPluginEvent = true := by
  unfold actionStep
  cases hc : p.take_action cfg st.alert st.action st.text st.timeout with
  | ok r => simp [isPluginEvent]
  | error e =>
    cases e with
    | typeErr m => cases hs : env.strict <;> simp [hs, isPluginEvent]
    | notImpl => simp [isPluginEvent]
    | control k m => simp [isPluginEvent]
    | generic m => cases hs : env.strict <;> simp [hs, isPluginEvent]

theorem actionLoop_events (env : Env) (cfg : Config) :
    ∀ (ps : List Plugin) (st : ActionState),
      ((actionLoop env cfg ps st).2).all isPluginEvent = true := by
  intro ps
  induction ps with
  | nil => intro st; simp [actionLoop]
  | cons p rest ih =>
    intro st
    cases hs : st.alert.is_suppressed with
    | true => simp [actionLoop, hs]
    | false =>
      have hev := actionStep_events env cfg p st
      cases hstep : actionStep env cfg p st with
      | mk r tr =>
        rw [hstep] at hev
        cases r with
        | ok st2 => simp [actionLoop, hs, hstep, List.all_append, hev, ih]
        | error e => simp [actionLoop, hs, hstep, hev]

theorem noteStep_events (env : Env) (cfg : Config) (p : Plugin) (st : NoteState) :
    ((noteStep env cfg p st).2).all isPluginEvent = true := by
  unfold noteStep
  cases hc : p.take_note cfg st.alert st.text with
  | ok r => simp [isPluginEvent]
  | error e =>
    cases e with
    | typeErr m => cases hs : env.strict <;> simp [hs, isPluginEvent]
    | notImpl => simp [isPluginEvent]
    | control k m => simp [isPluginEvent]
    | generic m => cases hs : env.strict <;> simp [hs, isPluginEvent]

theorem noteLoop_events (env : Env) (cfg : Config) :
    ∀ (ps : List Plugin) (st : NoteState),
      ((noteLoop env cfg ps st).2).all isPluginEvent = true := by
  intro ps
  induction ps with
  | nil => intro st; simp [noteLoop]
  | cons p rest ih =>
    intro st
    have hev := noteStep_events env cfg p st
    cases hstep : noteStep env cfg p st with
    | mk r tr =>
      rw [hstep] at hev
      cases r with
      | ok st2 => simp [noteLoop, hstep, List.all_append, hev, ih]
      | error e => simp [noteLoop, hstep, hev]

theorem statusStep_events (env : Env) (cfg : Config) (p : Plugin) (st : StatusState) :
    ((statusStep env cfg p st).2).all isPluginEvent = true := by
  unfold statusStep
  cases hc : p.status_change_cfg cfg st.alert st.status st.text with
  | ok r => simp [isPluginEvent]
  | error e =>
    cases e with
    | typeErr m =>
      cases hf : p.status_change_nocfg st.alert st.status st.text with
      | ok r => simp [isPluginEvent]
      | error e2 => simp [isPluginEvent]
    | notImpl => cases hs : env.strict <;> simp [hs, isPluginEvent]
    | control k m => simp [isPluginEvent]
    | generic m => cases hs : env.strict <;> simp [hs, isPluginEvent]

theorem statusLoop_events (env : Env) (cfg : Config) :
    ∀ (ps : List Plugin) (st : StatusState),
      ((statusLoop env cfg ps st).2).all isPluginEvent = true := by
  intro ps
  induction ps with
  | nil => intro st; simp [statusLoop]
  | cons p rest ih =>
    intro st
    cases hs : st.alert.is_suppressed with
    | true => simp [statusLoop, hs]
    | false =>
      have hev := statusStep_events env cfg p st
      cases hstep : statusStep env cfg p st with
      | mk r tr =>
        rw [hstep] at hev
        cases r with
        | ok st2 => simp [statusLoop, hs, hstep, List.all_append, hev, ih]
        | error e => simp [statusLoop, hs, hstep, hev]

theorem deleteStep_events (env : Env) (cfg : Config) (p : Plugin) (a : Alert) (del : Bool) :
    ((deleteStep env cfg p a del).2).all isPluginEvent = true := by
  unfold deleteStep
  cases hd : del with
  | false => simp
  | true =>
    cases hc : p.delete cfg a with
    | ok b => simp [isPluginEvent]
    | error e =>
      cases e with
      | typeErr m => cases hs : env.strict <;> simp [hs, isPluginEvent]
      | notImpl => simp [isPluginEvent]
      | control k m => simp [isPluginEvent]
      | generic m => cases hs : env.strict <;> simp [hs, isPluginEvent]

theorem deleteLoop_events (env : Env) (cfg : Config) (a : Alert) :
    ∀ (ps : List Plugin) (del : Bool),
      ((deleteLoop env cfg a ps del).2).all isPluginEvent = true := by
  intro ps
  induction ps with
  | nil => intro del; simp [deleteLoop]
  | cons p rest ih =>
    intro del
    have hev := deleteStep_events env cfg p a del
    cases hstep : deleteStep env cfg p a del with
    | mk r tr =>
      rw [hstep] at hev
      cases r with
      | ok del2 => simp [deleteLoop, hstep, List.all_append, hev, ih]
      | error e => simp [deleteLoop, hstep, hev]

theorem preLoop_append (env : Env) (cfg : Config) :
    ∀ (ps1 ps2 : List Plugin) (a a1 : Alert) (tr1 : List Event),
      preLoop env cfg ps1 a = (.ok (a1, false), tr1) →
      preLoop env cfg (ps1 ++ ps2) a =
        ((preLoop env cfg ps2 a1).1, tr1 ++ (preLoop env cfg ps2 a1).2) := by
  intro ps1
  induction ps1 with
  | nil =>
    intro ps2 a a1 tr1 h
    simp [preLoop] at h
    obtain ⟨rfl, rfl⟩ := h
    simp
  | cons p rest ih =>
    intro ps2 a a1 tr1 h
    cases hs : a.is_suppressed with
    | true => simp [preLoop, hs] at h
    | false =>
      cases hstep : preStep env cfg p a with
      | mk r tr =>
        cases r with
        | ok a2 =>
          cases hrec : preLoop env cfg rest a2 with
          | mk rr trr =>
            simp only [preLoop, hs, hstep, hrec] at h
            have h1 := congrArg Prod.fst h
            have h2 := congrArg Prod.snd h
            simp at h1 h2
            subst h2
            rw [h1] at hrec
            have hih := ih ps2 a2 a1 trr hrec
            simp [preLoop, hs, hstep, hih, List.append_assoc]
        | error e =>
          simp [preLoop, hs, hstep] at h

theorem postLoop_append (env : Env) (cfg : Config) (skip : Bool) :
    ∀ (ps1 ps2 : List Plugin) (a a1 : Alert) (upd upd1 : Bool) (tr1 : List Event),
      postLoop env cfg skip ps1 a upd = (.ok (a1, upd1), tr1) →
      postLoop env cfg skip (ps1 ++ ps2) a upd =
        ((postLoop env cfg skip ps2 a1 upd1).1,
          tr1 ++ (postLoop env cfg skip ps2 a1 upd1).2) := by
  intro ps1
  induction ps1 with
  | nil =>
    intro ps2 a a1 upd upd1 tr1 h
    simp [postLoop] at h
    obtain ⟨⟨rfl, rfl⟩, rfl⟩ := h
    simp
  | cons p rest ih =>
    intro ps2 a a1 upd upd1 tr1 h
    cases hsk : skip with
    | true =>
      subst hsk
      simp [postLoop] at h
      obtain ⟨⟨rfl, rfl⟩, rfl⟩ := h
      cases ps2 <;> simp [postLoop]
    | false =>
      subst hsk
      cases hstep : postStep env cfg p a with
      | mk r tr =>
        cases r with
        | ok o =>
          cases o with
          | some a2 =>
            cases hrec : postLoop env cfg false rest a2 true with
            | mk rr trr =>
              simp only [postLoop, hstep, hrec] at h
              have h1 := congrArg Prod.fst h
              have h2 := congrArg Prod.snd h
              simp at h1 h2
              subst h2
              rw [h1] at hrec
              have hih := ih ps2 a2 a1 true upd1 trr hrec
              simp [postLoop, hstep, hih, List.append_assoc]
          | none =>
            cases hrec : postLoop env cfg false rest a upd with
            | mk rr trr =>
              simp only [postLoop, hstep, hrec] at h
              have h1 := congrArg Prod.fst h
              have h2 := congrArg Prod.snd h
              simp at h1 h2
              subst h2
              rw [h1] at hrec
              have hih := ih ps2 a a1 upd upd1 trr hrec
              simp [postLoop, hstep, hih, List.append_assoc]
        | error e =>
          simp [postLoop, hstep] at h

theorem actionLoop_append (env : Env) (cfg : Config) :
    ∀ (ps1 ps2 : List Plugin) (st st1 : ActionState) (tr1 : List Event),
      actionLoop env cfg ps1 st = (.ok st1, tr1) →
      actionLoop env cfg (ps1 ++ ps2) st =
        ((actionLoop env cfg ps2 st1).1, tr1 ++ (actionLoop env cfg ps2 st1).2) := by
  intro ps1
  induction ps1 with
  | nil =>
    intro ps2 st st1 tr1 h
    simp [actionLoop] at h
    obtain ⟨rfl, rfl⟩ := h
    simp
  | cons p rest ih =>
    intro ps2 st st1 tr1 h
    cases hs : st.alert.is_suppressed with
    | true =>
      simp [actionLoop, hs] at h
      obtain ⟨rfl, rfl⟩ := h
      cases ps2 <;> simp [actionLoop, hs]
    | false =>
      cases hstep : actionStep env cfg p st with
      | mk r tr =>
        cases r with
        | ok st2 =>
          cases hrec : actionLoop env cfg rest st2 with
          | mk rr trr =>
            simp only [actionLoop, hs, hstep, hrec] at h
            have h1 := congrArg Prod.fst h
            have h2 := congrArg Prod.snd h
            simp at h1 h2
            subst h2
            rw [h1] at hrec
            have hih := ih ps2 st2 st1 trr hrec
            simp [actionLoop, hs, hstep, hih, List.append_assoc]
        | error e =>
          simp [actionLoop, hs, hstep] at h

theorem noteLoop_append (env : Env) (cfg : Config) :
    ∀ (ps1 ps2 : List Plugin) (st st1 : NoteState) (tr1 : List Event),
      noteLoop env cfg ps1 st = (.ok st1, tr1) →
      noteLoop env cfg (ps1 ++ ps2) st =
        ((noteLoop env cfg ps2 st1).1, tr1 ++ (noteLoop env cfg ps2 st1).2) := by
  intro ps1
  induction ps1 with
  | nil =>
    intro ps2 st st1 tr1 h
    simp [noteLoop] at h
    obtain ⟨rfl, rfl⟩ := h
    simp
  | cons p rest ih =>
    intro ps2 st st1 tr1 h
    cases hstep : noteStep env cfg p st with
    | mk r tr =>
      cases r with
      | ok st2 =>
        cases hrec : noteLoop env cfg rest st2 with
        | mk rr trr =>
          simp only [noteLoop, hstep, hrec] at h
          have h1 := congrArg Prod.fst h
          have h2 := congrArg Prod.snd h
          simp at h1 h2
          subst h2
          rw [h1] at hrec
          have hih := ih ps2 st2 st1 trr hrec
          simp [noteLoop, hstep, hih, List.append_assoc]
      | error e =>
        simp [noteLoop, hstep] at h

theorem statusLoop_append (env : Env) (cfg : Config) :
    ∀ (ps1 ps2 : List Plugin) (st st1 : StatusState) (tr1 : List Event),
      statusLoop env cfg ps1 st = (.ok st1, tr1) →
      statusLoop env cfg (ps1 ++ ps2) st =
        ((statusLoop env cfg ps2 st1).1, tr1 ++ (statusLoop env cfg ps2 st1).2) := by
  intro ps1
  induction ps1 with
  | nil =>
    intro ps2 st st1 tr1 h
    simp [statusLoop] at h
    obtain ⟨rfl, rfl⟩ := h
    simp
  | cons p rest ih =>
    intro ps2 st st1 tr1 h
    cases hs : st.alert.is_suppressed with
    | true =>
      simp [statusLoop, hs] at h
      obtain ⟨rfl, rfl⟩ := h
      cases ps2 <;> simp [statusLoop, hs]
    | false =>
      cases hstep : statusStep env cfg p st with
      | mk r tr =>
        cases r with
        | ok st2 =>
          cases hrec : statusLoop env cfg rest st2 with
          | mk rr trr =>
            simp only [statusLoop, hs, hstep, hrec] at h
            have h1 := congrArg Prod.fst h
            have h2 := congrArg Prod.snd h
            simp at h1 h2
            subst h2
            rw [h1] at hrec
            have hih := ih ps2 st2 st1 trr hrec
            simp [statusLoop, hs, hstep, hih, List.append_assoc]
        | error e =>
          simp [statusLoop, hs, hstep] at h

theorem deleteLoop_append (env : Env) (cfg : Config) (a : Alert) :
    ∀ (ps1 ps2 : List Plugin) (del del1 : Bool) (tr1 : List Event),
      deleteLoop env cfg a ps1 del = (.ok del1, tr1) →
      deleteLoop env cfg a (ps1 ++ ps2) del =
        ((deleteLoop env cfg a ps2 del1).1, tr1 ++ (deleteLoop env cfg a ps2 del1).2) := by
  intro ps1
  induction ps1 with
  | nil =>
    intro ps2 del del1 tr1 h
    simp [deleteLoop] at h
    obtain ⟨rfl, rfl⟩ := h
    simp
  | cons p rest ih =>
    intro ps2 del del1 tr1 h
    cases hstep : deleteStep env cfg p a del with
    | mk r tr =>
      cases r with
      | ok del2 =>
        cases hrec : deleteLoop env cfg a rest del2 with
        | mk rr trr =>
          simp only [deleteLoop, hstep, hrec] at h
          have h1 := congrArg Prod.fst h
          have h2 := congrArg Prod.snd h
          simp at h1 h2
          subst h2
          rw [h1] at hrec
          have hih := ih ps2 del2 del1 trr hrec
          simp [deleteLoop, hstep, hih, List.append_assoc]
      | error e =>
        simp [deleteLoop, hstep] at h

theorem process_alert_pre_error (env : Env) (a : Alert) (e : Err) (tr : List Event)
    (h : preLoop env (env.routing a).2 (env.routing a).1 a = (.error e, tr)) :
    process_alert env a = (.error e, tr) := by
  simp [process_alert, h]

theorem process_alert_post_error (env : Env) (a a1 a2 : Alert) (skip : Bool)
    (e : Err) (tr1 tr2 tr3 : List Event)
    (hpre : preLoop env (env.routing a).2 (env.routing a).1 a = (.ok (a1, skip), tr1))
    (hlife : lifecycle env a1 = (.ok a2, tr2))
    (hpost : postLoop env (env.routing a2).2 skip (env.routing a2).1 a2 false
      = (.error e, tr3)) :
    process_alert env a = (.error e, tr1 ++ tr2 ++ tr3) := by
  simp [process_alert, hpre, hlife, hpost]

theorem process_action_loop_error (env : Env) (a : Alert) (act tx : String)
    (tmo : Option Int) (e : Err) (tr : List Event)
    (h : actionLoop env (env.routing a).2 (env.routing a).1 ⟨a, act, tx, tmo, false⟩
      = (.error e, tr)) :
    process_action env a act tx tmo = (.error e, tr) := by
  simp [process_action, h]

theorem process_note_loop_error (env : Env) (a : Alert) (tx : String)
    (e : Err) (tr : List Event)
    (h : noteLoop env (env.routing a).2 (env.routing a).1 ⟨a, tx, false⟩ = (.error e, tr)) :
    process_note env a tx = (.error e, tr) := by
  simp [process_note, h]

theorem process_status_loop_error (env : Env) (a : Alert) (s tx : String)
    (e : Err) (tr : List Event)
    (h : statusLoop env (env.routing a).2 (env.routing a).1 ⟨a, s, tx, false⟩
      = (.error e, tr)) :
    process_status env a s tx = (.error e, tr) := by
  simp [process_status, h]

theorem process_delete_loop_error (env : Env) (a : Alert) (e : Err) (tr : List Event)
    (h : deleteLoop env (env.routing a).2 a (env.routing a).1 true = (.error e, tr)) :
    process_delete env a = (.error e, tr) := by
  simp [process_delete, h]

/-- Hook-call events. -/
def isHookCallEvent : Event → Bool
  | .hookCall _ _ _ => true
  | _ => false

theorem lifecycleEvents_no_hook (tr : List Event) (h : tr.all isLifecycleEvent = true) :
    tr.all (fun e => !(isHookCallEvent e)) = true := by
  rw [List.all_eq_true] at *
  intro e he
  have he2 := h e he
  cases e <;> simp_all [isLifecycleEvent, isHookCallEvent]

theorem pluginEvents_no_deleteOp (tr : List Event) (h : tr.all isPluginEvent = true) :
    Event.deleteOp ∉ tr := by
  rw [List.all_eq_true] at h
  intro hmem
  have he := h _ hmem
  simp [isPluginEvent] at he

/-- Once the running delete verdict is false, the remaining loop iterations
invoke nothing and produce no events (Python `and` short-circuit). -/
theorem deleteLoop_false (env : Env) (cfg : Config) (a : Alert) :
    ∀ ps, deleteLoop env cfg a ps false = (.ok false, []) := by
  intro ps
  induction ps with
  | nil => rfl
  | cons p rest ih => simp [deleteLoop, deleteStep, ih]

/-- With a suppressed alert the action loop runs no plugin. -/
theorem actionLoop_suppressed (env : Env) (cfg : Config) (ps : List Plugin)
    (st : ActionState) (h : st.alert.is_suppressed = true) :
    actionLoop env cfg ps st = (.ok st, []) := by
  cases ps <;> simp [actionLoop, h]

/-- With a suppressed alert the status loop runs no plugin. -/
theorem statusLoop_suppressed (env : Env) (cfg : Config) (ps : List Plugin)
    (st : StatusState) (h : st.alert.is_suppressed = true) :
    statusLoop env cfg ps st = (.ok st, []) := by
  cases ps <;> simp [statusLoop, h]

/-- With a suppressed alert and at least one routed plugin, the pre-receive
loop runs no plugin and sets `skip_plugins`. -/
theorem preLoop_suppressed_cons (env : Env) (cfg : Config) (p : Plugin)
    (ps : List Plugin) (a : Alert) (h : a.is_suppressed = true) :
    preLoop env cfg (p :: ps) a = (.ok (a, true), []) := by
  simp [preLoop, h]

/-- With `skip_plugins` set the post-receive loop runs no plugin. -/
theorem postLoop_skip (env : Env) (cfg : Config) (ps : List Plugin) (a : Alert)
    (upd : Bool) : postLoop env cfg true ps a upd = (.ok (a, upd), []) := by
  cases ps <;> simp [postLoop]

/-- The verdict of a hook call result, false for an exception. -/
def okVerdict : Except Exc Bool → Bool
  | .ok b => b
  | .error _ => false

/- Concrete fixtures used by witnesses and counterexamples. -/

def cfg0 : Config := ([] : List (String × String))

def alertA : Alert := ⟨1, false, ["t"], [("k", "v")]⟩

def alertSupp : Alert := ⟨2, true, [], []⟩

def alertB : Alert := ⟨7, false, ["u"], [("x", "y")]⟩

/-- A plugin whose hooks all return benign no-op results. -/
def basePlugin (nm : String) : Plugin where
  name := nm
  pre_receive_cfg := fun _ a => .ok (some a)
  pre_receive_nocfg := fun a => .ok (some a)
  post_receive_cfg := fun _ _ => .ok none
  post_receive_nocfg := fun _ => .ok none
  take_action := fun _ _ _ _ _ => .ok .noneRet
  take_note := fun _ _ _ => .ok .noneRet
  status_change_cfg := fun _ _ _ _ => .ok .noneRet
  status_change_nocfg := fun _ _ _ => .ok .noneRet
  delete := fun _ _ => .ok true

/-- An environment with no routed plugins and identity-like model
operations. -/
def baseEnv : Env where
  strict := true
  routing := fun _ => ([], cfg0)
  is_duplicate := fun _ => .ok none
  deduplicate := fun _ d => .ok d
  is_correlated := fun _ => .ok none
  update := fun _ d => .ok d
  create := fun a => .ok a
  update_attributes := fun _ attrs => attrs
  delete_op := fun _ => true

/-- C9: in the action pipeline, a plugin returning a 3-element tuple
(alert, action, text) replaces those three running fields but leaves the
timeout entering that plugin call unchanged; a 4-element tuple replaces all
four running fields. -/
theorem c9_action_tuple_arity (env : Env) (cfg : Config) (p : Plugin)
    (st : ActionState) (t : Int) (a2 : Alert) (act2 tx2 : String)
    (tmo2 : Option Int) :
    (st.timeout = some t →
      p.take_action cfg st.alert st.action st.text st.timeout
        = .ok (.tuple3 a2 act2 tx2) →
      actionStep env cfg p st =
        (.ok { alert := a2, action := act2, text := tx2, timeout := st.timeout,
               updated := true },
          [.hookCall "take_action" p.name true])) ∧
    (p.take_action cfg st.alert st.action st.text st.timeout
        = .ok (.tuple4 a2 act2 tx2 tmo2) →
      actionStep env cfg p st =
        (.ok { alert := a2, action := act2, text := tx2, timeout := tmo2,
               updated := true },
          [.hookCall "take_action" p.name true])) := by
  constructor
  · intro _ hhook
    simp [actionStep, hhook, normalizeAction]
  · intro hhook
    simp [actionStep, hhook, normalizeAction]

def pTup3 : Plugin :=
  { basePlugin "p9" with take_action := fun _ _ _ _ _ => .ok (.tuple3 alertB "shelve" "x") }

theorem c9_witness :
    actionStep baseEnv cfg0 pTup3 ⟨alertA, "ack", "t", some 5, false⟩ =
      (.ok ⟨alertB, "shelve", "x", some 5, true⟩,
        [.hookCall "take_action" "p9" true]) := by
  exact ((c9_action_tuple_arity baseEnv cfg0 pTup3
    ⟨alertA, "ack", "t", some 5, false⟩ 5 alertB "shelve" "x" none).1 rfl rfl)

def pDelFalse : Plugin := { basePlugin "pF" with delete := fun _ _ => .ok false }

def pDelTrue : Plugin := { basePlugin "pT" with delete := fun _ _ => .ok true }

def envC2 : Env := { baseEnv with routing := fun _ => ([pDelFalse, pDelTrue], cfg0) }

/-- C2 counterexample: with two routed plugins whose delete verdicts are
false then true, the second plugin's delete hook is never invoked — Python's
`and` short-circuits — contradicting "every plugin's delete hook is invoked
(no per-plugin short-circuit)". -/
theorem c2_counterexample :
    process_delete envC2 alertA = (.ok false, [.hookCall "delete" "pF" true]) ∧
    Event.hookCall "delete" "pT" true ∉ (process_delete envC2 alertA).2 := by
  constructor
  · rfl
  · decide

/-- C2 amended: every plugin's delete hook is invoked only while the running
verdict is still true — once it turns false, the remaining hooks are
short-circuited and produce no events.  The combined verdict is the logical
AND of all plugin verdicts (true for an empty chain), and the alert model's
`delete()` is invoked if and only if the combined verdict is true after the
loop. -/
theorem c2_delete_verdict_amended (env : Env) (a : Alert) :
    (∀ ps cfg, deleteLoop env cfg a ps false = (.ok false, [])) ∧
    (∀ d tr, deleteLoop env (env.routing a).2 a (env.routing a).1 true = (.ok d, tr) →
      process_delete env a =
        (.ok (d && env.delete_op a), tr ++ if d then [.deleteOp] else [])) ∧
    (∀ ps cfg, (∀ p ∈ ps, ∃ b, p.delete cfg a = .ok b) →
      (deleteLoop env cfg a ps true).1 =
        .ok (ps.all (fun p => okVerdict (p.delete cfg a)))) := by
  refine ⟨fun ps cfg => deleteLoop_false env cfg a ps, ?_, ?_⟩
  · intro d tr h
    cases d with
    | true => simp [process_delete, h]
    | false => simp [process_delete, h]
  · intro ps cfg
    induction ps with
    | nil => intro _; simp [deleteLoop]
    | cons p rest ih =>
      intro hall
      obtain ⟨b, hb⟩ := hall p (by simp)
      have hrest : ∀ q ∈ rest, ∃ c, q.delete cfg a = .ok c := by
        intro q hq
        exact hall q (by simp [hq])
      cases b with
      | true =>
        have := ih hrest
        cases hrec : deleteLoop env cfg a rest true with
        | mk rr trr =>
          rw [hrec] at this
          simp [deleteLoop, deleteStep, hb, hrec, this, okVerdict]
      | false =>
        simp [deleteLoop, deleteStep, hb, deleteLoop_false, okVerdict]

def envC2w : Env := { baseEnv with routing := fun _ => ([pDelTrue], cfg0) }

theorem c2_witness :
    process_delete envC2w alertA = (.ok true, [.hookCall "delete" "pT" true, .deleteOp]) ∧
    (deleteLoop envC2w cfg0 alertA [pDelTrue] true).1 = .ok true := by
  constructor
  · exact (c2_delete_verdict_amended envC2w alertA).2.1 true
      [.hookCall "delete" "pT" true] rfl
  · exact (c2_delete_verdict_amended envC2w alertA).2.2 [pDelTrue] cfg0
      (by intro p hp; simp at hp; subst hp; exact ⟨true, rfl⟩)

def envC1 : Env := { baseEnv with create := fun a => .ok { a with id := 99 } }

/-- C1 counterexample: a suppressed alert entering the receive pipeline is
not returned unchanged — the lifecycle-resolution stage still runs and here
`create()` returns an alert with a different id. -/
theorem c1_counterexample :
    alertSupp.is_suppressed = true ∧
    process_alert envC1 alertSupp =
      (.ok { alertSupp with id := 99 },
        [.isDuplicateOp, .isCorrelatedOp, .createOp]) ∧
    ({ alertSupp with id := 99 } : Alert) ≠ alertSupp := by
  refine ⟨rfl, rfl, by decide⟩

/-- C1 amended: with the suppressed flag true at entry, the action and
status pipelines invoke zero hooks and return the input unchanged with an
empty trace (so no resync); the receive pipeline, provided at least one
plugin is routed in the pre-phase, invokes zero hooks and performs no
resync, but still runs lifecycle resolution: it behaves exactly like the
lifecycle stage alone, so the alert is not in general returned unchanged. -/
theorem c1_suppressed_entry_amended :
    (∀ env a act tx tmo, a.is_suppressed = true →
      process_action env a act tx tmo = (.ok (a, act, tx, tmo), [])) ∧
    (∀ env a s tx, a.is_suppressed = true →
      process_status env a s tx = (.ok (a, s, tx), [])) ∧
    (∀ env a p ps cfg, a.is_suppressed = true → env.routing a = (p :: ps, cfg) →
      process_alert env a = lifecycle env a ∧
      (process_alert env a).2.all (fun e => !(isHookCallEvent e)) = true ∧
      (process_alert env a).2.all (fun e => !(isResyncEvent e)) = true) := by
  refine ⟨?_, ?_, ?_⟩
  · intro env a act tx tmo h
    simp [process_action, actionLoop_suppressed env _ _ ⟨a, act, tx, tmo, false⟩ h]
  · intro env a s tx h
    simp [process_status, statusLoop_suppressed env _ _ ⟨a, s, tx, false⟩ h]
  · intro env a p ps cfg hsupp hroute
    have heq : process_alert env a = lifecycle env a := by
      cases hlife : lifecycle env a with
      | mk lr ltr =>
        cases lr with
        | ok a2 =>
          simp [process_alert, hroute, preLoop_suppressed_cons env cfg p ps a hsupp,
            hlife, postLoop_skip]
        | error e =>
          simp [process_alert, hroute, preLoop_suppressed_cons env cfg p ps a hsupp,
            hlife]
    have hlev := lifecycle_events env a
    refine ⟨heq, ?_, ?_⟩
    · rw [heq]
      exact lifecycleEvents_no_hook _ hlev
    · rw [heq]
      exact lifecycleEvents_no_resync _ hlev

def pW1 : Plugin := basePlugin "w1"

def envC1w : Env := { envC1 with routing := fun _ => ([pW1], cfg0) }

theorem c1_witness :
    process_action baseEnv alertSupp "ack" "t" none
      = (.ok (alertSupp, "ack", "t", none), []) ∧
    process_status baseEnv alertSupp "closed" "t"
      = (.ok (alertSupp, "closed", "t"), []) ∧
    process_alert envC1w alertSupp = lifecycle envC1w alertSupp :=
  ⟨c1_suppressed_entry_amended.1 baseEnv alertSupp "ack" "t" none rfl,
    c1_suppressed_entry_amended.2.1 baseEnv alertSupp "closed" "t" rfl,
    (c1_suppressed_entry_amended.2.2 envC1w alertSupp pW1 [] cfg0 rfl rfl).1⟩

/-- C5: in the receive pipeline's lifecycle-resolution stage, a duplicate
match leads to `deduplicate` (and neither `create` nor `update` is ever
invoked); otherwise a correlation match leads to `update`; otherwise
`create` is invoked exactly once.  Any exception raised by the stage —
including a domain control signal — is wrapped into a single `ApiError`. -/
theorem c5_lifecycle_resolution (env : Env) (a : Alert) :
    (∀ dup, env.is_duplicate a = .ok (some dup) →
      lifecycle env a =
        ((match env.deduplicate a dup with
          | .ok a2 => .ok a2
          | .error e => .error (.apiError (excMsg e))),
         [.isDuplicateOp, .deduplicateOp]) ∧
      Event.createOp ∉ (lifecycle env a).2 ∧
      Event.updateOp ∉ (lifecycle env a).2) ∧
    (∀ corr, env.is_duplicate a = .ok none → env.is_correlated a = .ok (some corr) →
      lifecycle env a =
        ((match env.update a corr with
          | .ok a2 => .ok a2
          | .error e => .error (.apiError (excMsg e))),
         [.isDuplicateOp, .isCorrelatedOp, .updateOp])) ∧
    (env.is_duplicate a = .ok none → env.is_correlated a = .ok none →
      lifecycle env a =
        ((match env.create a with
          | .ok a2 => .ok a2
          | .error e => .error (.apiError (excMsg e))),
         [.isDuplicateOp, .isCorrelatedOp, .createOp]) ∧
      (lifecycle env a).2.count .createOp = 1) ∧
    (∀ e tr, lifecycle env a = (.error e, tr) → ∃ msg, e = .apiError msg) ∧
    (∀ exc, env.is_duplicate a = .error exc →
      lifecycle env a = (.error (.apiError (excMsg exc)), [.isDuplicateOp])) ∧
    ((∀ x, (env.routing x).1 = []) → process_alert env a = lifecycle env a) := by
  refine ⟨?_, ?_, ?_, ?_, ?_, ?_⟩
  · intro dup h
    refine ⟨?_, ?_, ?_⟩
    · unfold lifecycle
      rw [h]
      cases hdd : env.deduplicate a dup <;> simp [hdd]
    · unfold lifecycle
      rw [h]
      cases hdd : env.deduplicate a dup <;> simp [hdd]
    · unfold lifecycle
      rw [h]
      cases hdd : env.deduplicate a dup <;> simp [hdd]
  · intro corr h1 h2
    unfold lifecycle
    rw [h1, h2]
    cases hu : env.update a corr <;> simp [hu]
  · intro h1 h2
    constructor
    · unfold lifecycle
      rw [h1, h2]
      cases hcr : env.create a <;> simp [hcr]
    · unfold lifecycle
      rw [h1, h2]
      cases hcr : env.create a <;> simp [hcr]
  · intro e tr h
    cases hd : env.is_duplicate a with
    | error e2 =>
      refine ⟨excMsg e2, ?_⟩
      simp only [lifecycle, hd] at h
      simp_all
    | ok o =>
      cases o with
      | some dup =>
        cases hdd : env.deduplicate a dup with
        | error e2 =>
          refine ⟨excMsg e2, ?_⟩
          simp only [lifecycle, hd, hdd] at h
          simp_all
        | ok a2 =>
          simp only [lifecycle, hd, hdd] at h
          simp at h
      | none =>
        cases hc : env.is_correlated a with
        | error e2 =>
          refine ⟨excMsg e2, ?_⟩
          simp only [lifecycle, hd, hc] at h
          simp_all
        | ok o2 =>
          cases o2 with
          | some corr =>
            cases hu : env.update a corr with
            | error e2 =>
              refine ⟨excMsg e2, ?_⟩
              simp only [lifecycle, hd, hc, hu] at h
              simp_all
            | ok a2 =>
              simp only [lifecycle, hd, hc, hu] at h
              simp at h
          | none =>
            cases hcr : env.create a with
            | error e2 =>
              refine ⟨excMsg e2, ?_⟩
              simp only [lifecycle, hd, hc, hcr] at h
              simp_all
            | ok a2 =>
              simp only [lifecycle, hd, hc, hcr] at h
              simp at h
  · intro exc h
    unfold lifecycle
    rw [h]
  · intro hroute
    cases hlife : lifecycle env a with
    | mk lr ltr =>
      have h1 : preLoop env (env.routing a).2 (env.routing a).1 a
          = (.ok (a, false), []) := by
        rw [hroute a]
        rfl
      cases lr with
      | ok a2 =>
        have h2 : postLoop env (env.routing a2).2 false (env.routing a2).1 a2 false
            = (.ok (a2, false), []) := by
          rw [hroute a2]
          rfl
        simp [process_alert, h1, hlife, h2]
      | error e =>
        simp [process_alert, h1, hlife]

def alertD : Alert := ⟨3, false, [], []⟩

def envC5 : Env :=
  { baseEnv with is_duplicate := fun _ => .ok (some alertD) }

theorem c5_witness :
    lifecycle envC5 alertA = (.ok alertD, [.isDuplicateOp, .deduplicateOp]) ∧
    process_alert envC5 alertA = lifecycle envC5 alertA :=
  ⟨((c5_lifecycle_resolution envC5 alertA).1 alertD rfl).1,
    (c5_lifecycle_resolution envC5 alertA).2.2.2.2.2 (fun _ => rfl)⟩

def pStatusNone : Plugin :=
  { basePlugin "pN" with status_change_cfg := fun _ _ _ _ => .ok .noneRet }

def envC6 : Env := { baseEnv with routing := fun _ => ([pStatusNone], cfg0) }

/-- C6 counterexample: in the status pipeline a plugin returning a falsy
value does not abort with a protocol-violation error — even under strict
policy the pipeline completes normally, treating the return as no
mutation. -/
theorem c6_counterexample :
    envC6.strict = true ∧
    process_status envC6 alertA "ack" "hi" =
      (.ok (alertA, "ack", "hi"), [.hookCall "status_change" "pN" true]) := by
  exact ⟨rfl, rfl⟩

/-- C6 amended: only the receive pipeline's pre-receive phase aborts with
the protocol-violation error (`SyntaxError`) when a hook returns a falsy
alert, independent of the policy; in the action and status pipelines — and
in the receive post-phase — a falsy return is treated as no mutation and
the loop continues. -/
theorem c6_falsy_alert_amended :
    (∀ env a ps1 p ps2 a1 tr1,
      (env.routing a).1 = ps1 ++ p :: ps2 →
      preLoop env (env.routing a).2 ps1 a = (.ok (a1, false), tr1) →
      a1.is_suppressed = false →
      p.pre_receive_cfg (env.routing a).2 a1 = .ok none →
      process_alert env a =
        (.error (.protocolViolation (preReceiveNoneMsg p.name)),
          tr1 ++ [.hookCall "pre_receive" p.name true])) ∧
    (∀ env cfg p rest st,
      st.alert.is_suppressed = false →
      p.take_action cfg st.alert st.action st.text st.timeout = .ok .noneRet →
      actionLoop env cfg (p :: rest) st =
        ((actionLoop env cfg rest st).1,
          [.hookCall "take_action" p.name true] ++ (actionLoop env cfg rest st).2)) ∧
    (∀ env cfg p rest st,
      st.alert.is_suppressed = false →
      p.status_change_cfg cfg st.alert st.status st.text = .ok .noneRet →
      statusLoop env cfg (p :: rest) st =
        ((statusLoop env cfg rest st).1,
          [.hookCall "status_change" p.name true] ++ (statusLoop env cfg rest st).2)) ∧
    (∀ env cfg p rest a upd,
      p.post_receive_cfg cfg a = .ok none →
      postLoop env cfg false (p :: rest) a upd =
        ((postLoop env cfg false rest a upd).1,
          [.hookCall "post_receive" p.name true]
            ++ (postLoop env cfg false rest a upd).2)) := by
  refine ⟨?_, ?_, ?_, ?_⟩
  · intro env a ps1 p ps2 a1 tr1 hroute hpre hsupp hhook
    have hstep : preStep env (env.routing a).2 p a1 =
        (.error (.protocolViolation (preReceiveNoneMsg p.name)),
          [.hookCall "pre_receive" p.name true]) := by
      simp [preStep, hhook]
    have hhead : preLoop env (env.routing a).2 (p :: ps2) a1 =
        (.error (.protocolViolation (preReceiveNoneMsg p.name)),
          [.hookCall "pre_receive" p.name true]) := by
      simp [preLoop, hsupp, hstep]
    have happ := preLoop_append env (env.routing a).2 ps1 (p :: ps2) a a1 tr1 hpre
    rw [hhead] at happ
    have hfull : preLoop env (env.routing a).2 (env.routing a).1 a =
        (.error (.protocolViolation (preReceiveNoneMsg p.name)),
          tr1 ++ [.hookCall "pre_receive" p.name true]) := by
      rw [hroute]
      exact happ
    exact process_alert_pre_error env a _ _ hfull
  · intro env cfg p rest st hsupp hhook
    have hstep : actionStep env cfg p st = (.ok st, [.hookCall "take_action" p.name true]) := by
      simp [actionStep, hhook, normalizeAction]
    simp [actionLoop, hsupp, hstep]
  · intro env cfg p rest st hsupp hhook
    have hstep : statusStep env cfg p st =
        (.ok st, [.hookCall "status_change" p.name true]) := by
      simp [statusStep, hhook, normalizeStatus]
    simp [statusLoop, hsupp, hstep]
  · intro env cfg p rest a upd hhook
    have hstep : postStep env cfg p a = (.ok none, [.hookCall "post_receive" p.name true]) := by
      simp [postStep, hhook]
    simp [postLoop, hstep]

def pPreNone : Plugin :=
  { basePlugin "p0" with pre_receive_cfg := fun _ _ => .ok none }

def envC6w : Env :=
  { baseEnv with strict := false, routing := fun _ => ([pPreNone], cfg0) }

theorem c6_witness :
    process_alert envC6w alertA =
      (.error (.protocolViolation (preReceiveNoneMsg "p0")),
        [.hookCall "pre_receive" "p0" true]) ∧
    actionLoop baseEnv cfg0 [pStatusNone] ⟨alertA, "ack", "t", none, false⟩ =
      (.ok ⟨alertA, "ack", "t", none, false⟩, [.hookCall "take_action" "pN" true]) := by
  constructor
  · exact c6_falsy_alert_amended.1 envC6w alertA [] pPreNone [] alertA [] rfl rfl rfl rfl
  · have h := c6_falsy_alert_amended.2.1 baseEnv cfg0 pStatusNone []
      ⟨alertA, "ack", "t", none, false⟩ rfl rfl
    simpa using h

def pDelNI : Plugin := { basePlugin "pNI" with delete := fun _ _ => .error .notImpl }

def envC7 : Env := { baseEnv with routing := fun _ => ([pDelNI], cfg0) }

/-- C7 counterexample: the delete pipeline does treat a plugin's
`NotImplementedError` as a silent skip — even under strict policy the run
completes with the verdict unchanged and the model's `delete()` invoked —
contradicting the claim that only the note and action pipelines do. -/
theorem c7_counterexample :
    envC7.strict = true ∧
    process_delete envC7 alertA =
      (.ok true, [.hookCall "delete" "pNI" true, .deleteOp]) := by
  exact ⟨rfl, rfl⟩

/-- C7 amended: the note, action, and delete pipelines treat a plugin's
`NotImplementedError` as a silent skip after which the loop continues; the
receive (pre and post phases) and status pipelines instead handle it as a
generic fault (under strict policy, the wrapped processing error is
raised). -/
theorem c7_not_implemented_amended :
    (∀ env cfg p rest st, p.take_note cfg st.alert st.text = .error .notImpl →
      noteLoop env cfg (p :: rest) st =
        ((noteLoop env cfg rest st).1,
          [.hookCall "take_note" p.name true] ++ (noteLoop env cfg rest st).2)) ∧
    (∀ env cfg p rest st, st.alert.is_suppressed = false →
      p.take_action cfg st.alert st.action st.text st.timeout = .error .notImpl →
      actionLoop env cfg (p :: rest) st =
        ((actionLoop env cfg rest st).1,
          [.hookCall "take_action" p.name true] ++ (actionLoop env cfg rest st).2)) ∧
    (∀ env cfg a p rest, p.delete cfg a = .error .notImpl →
      deleteLoop env cfg a (p :: rest) true =
        ((deleteLoop env cfg a rest true).1,
          [.hookCall "delete" p.name true] ++ (deleteLoop env cfg a rest true).2)) ∧
    (∀ env cfg p rest a, env.strict = true → a.is_suppressed = false →
      p.pre_receive_cfg cfg a = .error .notImpl →
      preLoop env cfg (p :: rest) a =
        (.error (.runtimeError (errMsg "pre-receive" p.name "")),
          [.hookCall "pre_receive" p.name true])) ∧
    (∀ env cfg p rest a upd, env.strict = true →
      p.post_receive_cfg cfg a = .error .notImpl →
      postLoop env cfg false (p :: rest) a upd =
        (.error (.apiError (errMsg "post-receive" p.name "")),
          [.hookCall "post_receive" p.name true])) ∧
    (∀ env cfg p rest st, env.strict = true → st.alert.is_suppressed = false →
      p.status_change_cfg cfg st.alert st.status st.text = .error .notImpl →
      statusLoop env cfg (p :: rest) st =
        (.error (.apiError (errMsg "status" p.name "")),
          [.hookCall "status_change" p.name true])) := by
  refine ⟨?_, ?_, ?_, ?_, ?_, ?_⟩
  · intro env cfg p rest st hhook
    have hstep : noteStep env cfg p st = (.ok st, [.hookCall "take_note" p.name true]) := by
      simp [noteStep, hhook]
    simp [noteLoop, hstep]
  · intro env cfg p rest st hsupp hhook
    have hstep : actionStep env cfg p st = (.ok st, [.hookCall "take_action" p.name true]) := by
      simp [actionStep, hhook]
    simp [actionLoop, hsupp, hstep]
  · intro env cfg a p rest hhook
    have hstep : deleteStep env cfg p a true = (.ok true, [.hookCall "delete" p.name true]) := by
      simp [deleteStep, hhook]
    simp [deleteLoop, hstep]
  · intro env cfg p rest a hstrict hsupp hhook
    have hstep : preStep env cfg p a =
        (.error (.runtimeError (errMsg "pre-receive" p.name "")),
          [.hookCall "pre_receive" p.name true]) := by
      simp [preStep, hhook, hstrict, excMsg]
    simp [preLoop, hsupp, hstep]
  · intro env cfg p rest a upd hstrict hhook
    have hstep : postStep env cfg p a =
        (.error (.apiError (errMsg "post-receive" p.name "")),
          [.hookCall "post_receive" p.name true]) := by
      simp [postStep, hhook, hstrict, excMsg]
    simp [postLoop, hstep]
  · intro env cfg p rest st hstrict hsupp hhook
    have hstep : statusStep env cfg p st =
        (.error (.apiError (errMsg "status" p.name "")),
          [.hookCall "status_change" p.name true]) := by
      simp [statusStep, hhook, hstrict, excMsg]
    simp [statusLoop, hsupp, hstep]

def pNoteNI : Plugin := { basePlugin "pQ" with take_note := fun _ _ _ => .error .notImpl }

def pPreNI : Plugin := { basePlugin "pR" with pre_receive_cfg := fun _ _ => .error .notImpl }

theorem c7_witness :
    noteLoop baseEnv cfg0 [pNoteNI] ⟨alertA, "n", false⟩ =
      (.ok ⟨alertA, "n", false⟩, [.hookCall "take_note" "pQ" true]) ∧
    preLoop baseEnv cfg0 [pPreNI] alertA =
      (.error (.runtimeError (errMsg "pre-receive" "pR" "")),
        [.hookCall "pre_receive" "pR" true]) := by
  constructor
  · have h := c7_not_implemented_amended.1 baseEnv cfg0 pNoteNI [] ⟨alertA, "n", false⟩ rfl
    simpa using h
  · exact c7_not_implemented_amended.2.2.2.1 baseEnv cfg0 pPreNI [] alertA rfl rfl rfl

def pActTE : Plugin :=
  { basePlugin "pTE" with take_action := fun _ _ _ _ _ => .error (.typeErr "bad") }

def envC8 : Env :=
  { baseEnv with strict := false, routing := fun _ => ([pActTE], cfg0) }

/-- C8 counterexample: in the action pipeline a `TypeError` from the
canonical call does not trigger a reduced-shape retry — the hook is called
exactly once and the fault is handled by the generic lenient path —
contradicting the claim that every pipeline attempts two call shapes. -/
theorem c8_counterexample :
    process_action envC8 alertA "ack" "t" none =
      (.ok (alertA, "ack", "t", none),
        [.hookCall "take_action" "pTE" true,
         .logError (errMsg "action" "pTE" "bad")]) ∧
    Event.hookCall "take_action" "pTE" false
      ∉ (process_action envC8 alertA "ack" "t" none).2 := by
  refine ⟨rfl, ?_⟩
  decide

/-- C8 amended: the two-shape call negotiation (canonical call, then — on a
`TypeError` only — a reduced call omitting configuration) applies to the
pre-receive, post-receive, and status-change hooks; there, any non-TypeError
outcome of the canonical call is final (no retry), and a failure of the
reduced call propagates unfiltered.  The take-action, take-note, and delete
hooks are only ever called in the canonical shape, and a `TypeError` there
is handled as a generic fault. -/
theorem c8_call_shapes_amended :
    (∀ env cfg p a m, p.pre_receive_cfg cfg a = .error (.typeErr m) →
      (preStep env cfg p a).2 =
        [.hookCall "pre_receive" p.name true, .hookCall "pre_receive" p.name false] ∧
      ∀ e2, p.pre_receive_nocfg a = .error e2 →
        (preStep env cfg p a).1 = .error (.exc e2)) ∧
    (∀ env cfg p a e, p.pre_receive_cfg cfg a = .error e → (∀ m, e ≠ .typeErr m) →
      Event.hookCall "pre_receive" p.name false ∉ (preStep env cfg p a).2) ∧
    (∀ env cfg p a r, p.pre_receive_cfg cfg a = .ok r →
      (preStep env cfg p a).2 = [.hookCall "pre_receive" p.name true]) ∧
    (∀ env cfg p a m, p.post_receive_cfg cfg a = .error (.typeErr m) →
      (postStep env cfg p a).2 =
        [.hookCall "post_receive" p.name true, .hookCall "post_receive" p.name false] ∧
      ∀ e2, p.post_receive_nocfg a = .error e2 →
        (postStep env cfg p a).1 = .error (.exc e2)) ∧
    (∀ env cfg p a e, p.post_receive_cfg cfg a = .error e → (∀ m, e ≠ .typeErr m) →
      Event.hookCall "post_receive" p.name false ∉ (postStep env cfg p a).2) ∧
    (∀ env cfg p st m, p.status_change_cfg cfg st.alert st.status st.text
        = .error (.typeErr m) →
      (statusStep env cfg p st).2 =
        [.hookCall "status_change" p.name true,
         .hookCall "status_change" p.name false] ∧
      ∀ e2, p.status_change_nocfg st.alert st.status st.text = .error e2 →
        (statusStep env cfg p st).1 = .error (.exc e2)) ∧
    (∀ env cfg p st e, p.status_change_cfg cfg st.alert st.status st.text = .error e →
      (∀ m, e ≠ .typeErr m) →
      Event.hookCall "status_change" p.name false ∉ (statusStep env cfg p st).2) ∧
    (∀ env cfg p st, Event.hookCall "take_action" p.name false
      ∉ (actionStep env cfg p st).2) ∧
    (∀ env cfg p st m, env.strict = true →
      p.take_action cfg st.alert st.action st.text st.timeout = .error (.typeErr m) →
      actionStep env cfg p st =
        (.error (.apiError (errMsg "action" p.name m)),
          [.hookCall "take_action" p.name true])) ∧
    (∀ env cfg p st, Event.hookCall "take_note" p.name false
      ∉ (noteStep env cfg p st).2) ∧
    (∀ env cfg p a del, Event.hookCall "delete" p.name false
      ∉ (deleteStep env cfg p a del).2) := by
  refine ⟨?_, ?_, ?_, ?_, ?_, ?_, ?_, ?_, ?_, ?_, ?_⟩
  · intro env cfg p a m hhook
    constructor
    · cases hf : p.pre_receive_nocfg a with
      | ok r => cases r <;> simp [preStep, hhook, hf]
      | error e2 => simp [preStep, hhook, hf]
    · intro e2 hf
      simp [preStep, hhook, hf]
  · intro env cfg p a e hhook hne
    cases e with
    | typeErr m => exact absurd rfl (hne m)
    | notImpl => cases hs : env.strict <;> simp [preStep, hhook, hs]
    | control k m => simp [preStep, hhook]
    | generic m => cases hs : env.strict <;> simp [preStep, hhook, hs]
  · intro env cfg p a r hhook
    cases r <;> simp [preStep, hhook]
  · intro env cfg p a m hhook
    constructor
    · cases hf : p.post_receive_nocfg a with
      | ok r => simp [postStep, hhook, hf]
      | error e2 => simp [postStep, hhook, hf]
    · intro e2 hf
      simp [postStep, hhook, hf]
  · intro env cfg p a e hhook hne
    cases e with
    | typeErr m => exact absurd rfl (hne m)
    | notImpl => cases hs : env.strict <;> simp [postStep, hhook, hs]
    | control k m => simp [postStep, hhook]
    | generic m => cases hs : env.strict <;> simp [postStep, hhook, hs]
  · intro env cfg p st m hhook
    constructor
    · cases hf : p.status_change_nocfg st.alert st.status st.text with
      | ok r => simp [statusStep, hhook, hf]
      | error e2 => simp [statusStep, hhook, hf]
    · intro e2 hf
      simp [statusStep, hhook, hf]
  · intro env cfg p st e hhook hne
    cases e with
    | typeErr m => exact absurd rfl (hne m)
    | notImpl => cases hs : env.strict <;> simp [statusStep, hhook, hs]
    | control k m => simp [statusStep, hhook]
    | generic m => cases hs : env.strict <;> simp [statusStep, hhook, hs]
  · intro env cfg p st
    cases hc : p.take_action cfg st.alert st.action st.text st.timeout with
    | ok r => simp [actionStep, hc]
    | error e =>
      cases e with
      | typeErr m => cases hs : env.strict <;> simp [actionStep, hc, hs]
      | notImpl => simp [actionStep, hc]
      | control k m => simp [actionStep, hc]
      | generic m => cases hs : env.strict <;> simp [actionStep, hc, hs]
  · intro env cfg p st m hstrict hhook
    simp [actionStep, hhook, hstrict, excMsg]
  · intro env cfg p st
    cases hc : p.take_note cfg st.alert st.text with
    | ok r => simp [noteStep, hc]
    | error e =>
      cases e with
      | typeErr m => cases hs : env.strict <;> simp [noteStep, hc, hs]
      | notImpl => simp [noteStep, hc]
      | control k m => simp [noteStep, hc]
      | generic m => cases hs : env.strict <;> simp [noteStep, hc, hs]
  · intro env cfg p a del
    cases hd : del with
    | false => simp [deleteStep]
    | true =>
      cases hc : p.delete cfg a with
      | ok b => simp [deleteStep, hc]
      | error e =>
        cases e with
        | typeErr m => cases hs : env.strict <;> simp [deleteStep, hc, hs]
        | notImpl => simp [deleteStep, hc]
        | control k m => simp [deleteStep, hc]
        | generic m => cases hs : env.strict <;> simp [deleteStep, hc, hs]

def pPreTE : Plugin :=
  { basePlugin "pS" with
      pre_receive_cfg := fun _ _ => .error (.typeErr "t"),
      pre_receive_nocfg := fun _ => .ok (some alertB) }

theorem c8_witness :
    (preStep baseEnv cfg0 pPreTE alertA).2 =
      [.hookCall "pre_receive" "pS" true, .hookCall "pre_receive" "pS" false] ∧
    actionStep baseEnv cfg0 pActTE ⟨alertA, "ack", "t", none, false⟩ =
      (.error (.apiError (errMsg "action" "pTE" "bad")),
        [.hookCall "take_action" "pTE" true]) := by
  constructor
  · exact (c8_call_shapes_amended.1 baseEnv cfg0 pPreTE alertA "t" rfl).1
  · exact c8_call_shapes_amended.2.2.2.2.2.2.2.2.1 baseEnv cfg0 pActTE
      ⟨alertA, "ack", "t", none, false⟩ "bad" rfl rfl

/-- C3: in every pipeline, a domain control-signal exception raised by
plugin k of a routed chain aborts the loop — the remaining plugins
contribute nothing — and propagates unchanged to the caller (never wrapped,
whatever the policy, which is universally quantified here); the run's trace
ends at the offending hook call, with no resync (and, for the receive
pre-phase, no lifecycle-resolution) event after it. -/
theorem c3_control_propagation :
    (∀ env a ps1 p ps2 a1 tr1 k m,
      (env.routing a).1 = ps1 ++ p :: ps2 →
      preLoop env (env.routing a).2 ps1 a = (.ok (a1, false), tr1) →
      a1.is_suppressed = false →
      p.pre_receive_cfg (env.routing a).2 a1 = .error (.control k m) →
      process_alert env a =
        (.error (.exc (.control k m)), tr1 ++ [.hookCall "pre_receive" p.name true]) ∧
      (tr1 ++ [Event.hookCall "pre_receive" p.name true]).all
        (fun e => !(isResyncEvent e)) = true ∧
      (tr1 ++ [Event.hookCall "pre_receive" p.name true]).all
        (fun e => !(isLifecycleEvent e)) = true) ∧
    (∀ env a a1 tr1 a2 tr2 ps1 p ps2 a3 u tr3 k m,
      preLoop env (env.routing a).2 (env.routing a).1 a = (.ok (a1, false), tr1) →
      lifecycle env a1 = (.ok a2, tr2) →
      (env.routing a2).1 = ps1 ++ p :: ps2 →
      postLoop env (env.routing a2).2 false ps1 a2 false = (.ok (a3, u), tr3) →
      p.post_receive_cfg (env.routing a2).2 a3 = .error (.control k m) →
      process_alert env a =
        (.error (.exc (.control k m)),
          tr1 ++ tr2 ++ (tr3 ++ [.hookCall "post_receive" p.name true])) ∧
      (tr1 ++ tr2 ++ (tr3 ++ [Event.hookCall "post_receive" p.name true])).all
        (fun e => !(isResyncEvent e)) = true) ∧
    (∀ env a act tx tmo ps1 p ps2 st1 tr1 k m,
      (env.routing a).1 = ps1 ++ p :: ps2 →
      actionLoop env (env.routing a).2 ps1 ⟨a, act, tx, tmo, false⟩ = (.ok st1, tr1) →
      st1.alert.is_suppressed = false →
      p.take_action (env.routing a).2 st1.alert st1.action st1.text st1.timeout
        = .error (.control k m) →
      process_action env a act tx tmo =
        (.error (.exc (.control k m)), tr1 ++ [.hookCall "take_action" p.name true]) ∧
      (tr1 ++ [Event.hookCall "take_action" p.name true]).all
        (fun e => !(isResyncEvent e)) = true) ∧
    (∀ env a tx ps1 p ps2 st1 tr1 k m,
      (env.routing a).1 = ps1 ++ p :: ps2 →
      noteLoop env (env.routing a).2 ps1 ⟨a, tx, false⟩ = (.ok st1, tr1) →
      p.take_note (env.routing a).2 st1.alert st1.text = .error (.control k m) →
      process_note env a tx =
        (.error (.exc (.control k m)), tr1 ++ [.hookCall "take_note" p.name true]) ∧
      (tr1 ++ [Event.hookCall "take_note" p.name true]).all
        (fun e => !(isResyncEvent e)) = true) ∧
    (∀ env a s tx ps1 p ps2 st1 tr1 k m,
      (env.routing a).1 = ps1 ++ p :: ps2 →
      statusLoop env (env.routing a).2 ps1 ⟨a, s, tx, false⟩ = (.ok st1, tr1) →
      st1.alert.is_suppressed = false →
      p.status_change_cfg (env.routing a).2 st1.alert st1.status st1.text
        = .error (.control k m) →
      process_status env a s tx =
        (.error (.exc (.control k m)), tr1 ++ [.hookCall "status_change" p.name true]) ∧
      (tr1 ++ [Event.hookCall "status_change" p.name true]).all
        (fun e => !(isResyncEvent e)) = true) ∧
    (∀ env a ps1 p ps2 tr1 k m,
      (env.routing a).1 = ps1 ++ p :: ps2 →
      deleteLoop env (env.routing a).2 a ps1 true = (.ok true, tr1) →
      p.delete (env.routing a).2 a = .error (.control k m) →
      process_delete env a =
        (.error (.exc (.control k m)), tr1 ++ [.hookCall "delete" p.name true]) ∧
      Event.deleteOp ∉ tr1 ++ [Event.hookCall "delete" p.name true]) := by
  refine ⟨?_, ?_, ?_, ?_, ?_, ?_⟩
  · intro env a ps1 p ps2 a1 tr1 k m hroute hpre hsupp hhook
    have hstep : preStep env (env.routing a).2 p a1 =
        (.error (.exc (.control k m)), [.hookCall "pre_receive" p.name true]) := by
      simp [preStep, hhook]
    have hhead : preLoop env (env.routing a).2 (p :: ps2) a1 =
        (.error (.exc (.control k m)), [.hookCall "pre_receive" p.name true]) := by
      simp [preLoop, hsupp, hstep]
    have happ := preLoop_append env (env.routing a).2 ps1 (p :: ps2) a a1 tr1 hpre
    rw [hhead] at happ
    have hfull : preLoop env (env.routing a).2 (env.routing a).1 a =
        (.error (.exc (.control k m)), tr1 ++ [.hookCall "pre_receive" p.name true]) := by
      rw [hroute]
      exact happ
    have h1 := preLoop_events env (env.routing a).2 ps1 a
    rw [hpre] at h1
    have htr : (tr1 ++ [Event.hookCall "pre_receive" p.name true]).all
        isPluginEvent = true := by
      simp [List.all_append, h1, isPluginEvent]
    exact ⟨process_alert_pre_error env a _ _ hfull,
      pluginEvents_no_resync _ htr, pluginEvents_no_lifecycle _ htr⟩
  · intro env a a1 tr1 a2 tr2 ps1 p ps2 a3 u tr3 k m hpre hlife hroute2 hpost hhook
    have hstep : postStep env (env.routing a2).2 p a3 =
        (.error (.exc (.control k m)), [.hookCall "post_receive" p.name true]) := by
      simp [postStep, hhook]
    have hhead : postLoop env (env.routing a2).2 false (p :: ps2) a3 u =
        (.error (.exc (.control k m)), [.hookCall "post_receive" p.name true]) := by
      simp [postLoop, hstep]
    have happ := postLoop_append env (env.routing a2).2 false ps1 (p :: ps2)
      a2 a3 false u tr3 hpost
    rw [hhead] at happ
    have hfull : postLoop env (env.routing a2).2 false (env.routing a2).1 a2 false =
        (.error (.exc (.control k m)), tr3 ++ [.hookCall "post_receive" p.name true]) := by
      rw [hroute2]
      exact happ
    have h1 := preLoop_events env (env.routing a).2 (env.routing a).1 a
    rw [hpre] at h1
    have h2 := lifecycle_events env a1
    rw [hlife] at h2
    have h3 := postLoop_events env (env.routing a2).2 false ps1 a2 false
    rw [hpost] at h3
    refine ⟨process_alert_post_error env a a1 a2 false _ tr1 tr2 _ hpre hlife hfull, ?_⟩
    have c1 := pluginEvents_no_resync tr1 h1
    have c2 := lifecycleEvents_no_resync tr2 h2
    have c3 := pluginEvents_no_resync tr3 h3
    simp only [List.all_append, Bool.and_eq_true]
    exact ⟨⟨c1, c2⟩, c3, by simp [isResyncEvent]⟩
  · intro env a act tx tmo ps1 p ps2 st1 tr1 k m hroute hloop hsupp hhook
    have hstep : actionStep env (env.routing a).2 p st1 =
        (.error (.exc (.control k m)), [.hookCall "take_action" p.name true]) := by
      simp [actionStep, hhook]
    have hhead : actionLoop env (env.routing a).2 (p :: ps2) st1 =
        (.error (.exc (.control k m)), [.hookCall "take_action" p.name true]) := by
      simp [actionLoop, hsupp, hstep]
    have happ := actionLoop_append env (env.routing a).2 ps1 (p :: ps2)
      ⟨a, act, tx, tmo, false⟩ st1 tr1 hloop
    rw [hhead] at happ
    have hfull : actionLoop env (env.routing a).2 (env.routing a).1
        ⟨a, act, tx, tmo, false⟩ =
        (.error (.exc (.control k m)), tr1 ++ [.hookCall "take_action" p.name true]) := by
      rw [hroute]
      exact happ
    have h1 := actionLoop_events env (env.routing a).2 ps1 ⟨a, act, tx, tmo, false⟩
    rw [hloop] at h1
    have htr : (tr1 ++ [Event.hookCall "take_action" p.name true]).all
        isPluginEvent = true := by
      simp [List.all_append, h1, isPluginEvent]
    exact ⟨process_action_loop_error env a act tx tmo _ _ hfull,
      pluginEvents_no_resync _ htr⟩
  · intro env a tx ps1 p ps2 st1 tr1 k m hroute hloop hhook
    have hstep : noteStep env (env.routing a).2 p st1 =
        (.error (.exc (.control k m)), [.hookCall "take_note" p.name true]) := by
      simp [noteStep, hhook]
    have hhead : noteLoop env (env.routing a).2 (p :: ps2) st1 =
        (.error (.exc (.control k m)), [.hookCall "take_note" p.name true]) := by
      simp [noteLoop, hstep]
    have happ := noteLoop_append env (env.routing a).2 ps1 (p :: ps2)
      ⟨a, tx, false⟩ st1 tr1 hloop
    rw [hhead] at happ
    have hfull : noteLoop env (env.routing a).2 (env.routing a).1 ⟨a, tx, false⟩ =
        (.error (.exc (.control k m)), tr1 ++ [.hookCall "take_note" p.name true]) := by
      rw [hroute]
      exact happ
    have h1 := noteLoop_events env (env.routing a).2 ps1 ⟨a, tx, false⟩
    rw [hloop] at h1
    have htr : (tr1 ++ [Event.hookCall "take_note" p.name true]).all
        isPluginEvent = true := by
      simp [List.all_append, h1, isPluginEvent]
    exact ⟨process_note_loop_error env a tx _ _ hfull, pluginEvents_no_resync _ htr⟩
  · intro env a s tx ps1 p ps2 st1 tr1 k m hroute hloop hsupp hhook
    have hstep : statusStep env (env.routing a).2 p st1 =
        (.error (.exc (.control k m)), [.hookCall "status_change" p.name true]) := by
      simp [statusStep, hhook]
    have hhead : statusLoop env (env.routing a).2 (p :: ps2) st1 =
        (.error (.exc (.control k m)), [.hookCall "status_change" p.name true]) := by
      simp [statusLoop, hsupp, hstep]
    have happ := statusLoop_append env (env.routing a).2 ps1 (p :: ps2)
      ⟨a, s, tx, false⟩ st1 tr1 hloop
    rw [hhead] at happ
    have hfull : statusLoop env (env.routing a).2 (env.routing a).1 ⟨a, s, tx, false⟩ =
        (.error (.exc (.control k m)),
          tr1 ++ [.hookCall "status_change" p.name true]) := by
      rw [hroute]
      exact happ
    have h1 := statusLoop_events env (env.routing a).2 ps1 ⟨a, s, tx, false⟩
    rw [hloop] at h1
    have htr : (tr1 ++ [Event.hookCall "status_change" p.name true]).all
        isPluginEvent = true := by
      simp [List.all_append, h1, isPluginEvent]
    exact ⟨process_status_loop_error env a s tx _ _ hfull, pluginEvents_no_resync _ htr⟩
  · intro env a ps1 p ps2 tr1 k m hroute hloop hhook
    have hstep : deleteStep env (env.routing a).2 p a true =
        (.error (.exc (.control k m)), [.hookCall "delete" p.name true]) := by
      simp [deleteStep, hhook]
    have hhead : deleteLoop env (env.routing a).2 a (p :: ps2) true =
        (.error (.exc (.control k m)), [.hookCall "delete" p.name true]) := by
      simp [deleteLoop, hstep]
    have happ := deleteLoop_append env (env.routing a).2 a ps1 (p :: ps2)
      true true tr1 hloop
    rw [hhead] at happ
    have hfull : deleteLoop env (env.routing a).2 a (env.routing a).1 true =
        (.error (.exc (.control k m)), tr1 ++ [.hookCall "delete" p.name true]) := by
      rw [hroute]
      exact happ
    have h1 := deleteLoop_events env (env.routing a).2 a ps1 true
    rw [hloop] at h1
    have htr : (tr1 ++ [Event.hookCall "delete" p.name true]).all
        isPluginEvent = true := by
      simp [List.all_append, h1, isPluginEvent]
    exact ⟨process_delete_loop_error env a _ _ hfull, pluginEvents_no_deleteOp _ htr⟩

def pActCtl : Plugin :=
  { basePlugin "pc" with
      take_action := fun _ _ _ _ _ => .error (.control .reject "denied") }

def envC3 : Env := { baseEnv with routing := fun _ => ([pActCtl], cfg0) }

def pDelCtl : Plugin :=
  { basePlugin "pd" with delete := fun _ _ => .error (.control .rateLimit "slow") }

def envC3d : Env := { baseEnv with routing := fun _ => ([pDelCtl], cfg0) }

theorem c3_witness :
    process_action envC3 alertA "ack" "t" none =
      (.error (.exc (.control .reject "denied")), [.hookCall "take_action" "pc" true]) ∧
    process_delete envC3d alertA =
      (.error (.exc (.control .rateLimit "slow")), [.hookCall "delete" "pd" true]) := by
  constructor
  · exact (c3_control_propagation.2.2.1 envC3 alertA "ack" "t" none [] pActCtl []
      ⟨alertA, "ack", "t", none, false⟩ [] .reject "denied" rfl rfl rfl rfl).1
  · exact (c3_control_propagation.2.2.2.2.2 envC3d alertA [] pDelCtl [] []
      .rateLimit "slow" rfl rfl rfl).1

/-- C4: in every pipeline, a generic (non-control-signal, non-unsupported)
plugin fault is wrapped, under strict policy, into a single processing error
carrying the plugin's name and the stage name (a `RuntimeError` for the
pre-receive stage, an `ApiError` elsewhere) and the pipeline aborts
immediately; under lenient policy the fault is only logged, the call counts
as no mutation, and the next plugin still runs from the same state. -/
theorem c4_generic_fault_policy :
    (∀ env a ps1 p ps2 a1 tr1 m,
      env.strict = true →
      (env.routing a).1 = ps1 ++ p :: ps2 →
      preLoop env (env.routing a).2 ps1 a = (.ok (a1, false), tr1) →
      a1.is_suppressed = false →
      p.pre_receive_cfg (env.routing a).2 a1 = .error (.generic m) →
      process_alert env a =
        (.error (.runtimeError (errMsg "pre-receive" p.name m)),
          tr1 ++ [.hookCall "pre_receive" p.name true])) ∧
    (∀ env cfg a p rest m,
      env.strict = false →
      a.is_suppressed = false →
      p.pre_receive_cfg cfg a = .error (.generic m) →
      preLoop env cfg (p :: rest) a =
        ((preLoop env cfg rest a).1,
          [.hookCall "pre_receive" p.name true,
           .logError (errMsg "pre-receive" p.name m)] ++ (preLoop env cfg rest a).2)) ∧
    (∀ env cfg a rest upd p m,
      env.strict = true →
      p.post_receive_cfg cfg a = .error (.generic m) →
      postLoop env cfg false (p :: rest) a upd =
        (.error (.apiError (errMsg "post-receive" p.name m)),
          [.hookCall "post_receive" p.name true])) ∧
    (∀ env cfg a rest upd p m,
      env.strict = false →
      p.post_receive_cfg cfg a = .error (.generic m) →
      postLoop env cfg false (p :: rest) a upd =
        ((postLoop env cfg false rest a upd).1,
          [.hookCall "post_receive" p.name true,
           .logError (errMsg "post-receive" p.name m)]
            ++ (postLoop env cfg false rest a upd).2)) ∧
    (∀ env a act tx tmo ps1 p ps2 st1 tr1 m,
      env.strict = true →
      (env.routing a).1 = ps1 ++ p :: ps2 →
      actionLoop env (env.routing a).2 ps1 ⟨a, act, tx, tmo, false⟩ = (.ok st1, tr1) →
      st1.alert.is_suppressed = false →
      p.take_action (env.routing a).2 st1.alert st1.action st1.text st1.timeout
        = .error (.generic m) →
      process_action env a act tx tmo =
        (.error (.apiError (errMsg "action" p.name m)),
          tr1 ++ [.hookCall "take_action" p.name true])) ∧
    (∀ env cfg p rest st m,
      env.strict = false →
      st.alert.is_suppressed = false →
      p.take_action cfg st.alert st.action st.text st.timeout = .error (.generic m) →
      actionLoop env cfg (p :: rest) st =
        ((actionLoop env cfg rest st).1,
          [.hookCall "take_action" p.name true,
           .logError (errMsg "action" p.name m)] ++ (actionLoop env cfg rest st).2)) ∧
    (∀ env a tx ps1 p ps2 st1 tr1 m,
      env.strict = true →
      (env.routing a).1 = ps1 ++ p :: ps2 →
      noteLoop env (env.routing a).2 ps1 ⟨a, tx, false⟩ = (.ok st1, tr1) →
      p.take_note (env.routing a).2 st1.alert st1.text = .error (.generic m) →
      process_note env a tx =
        (.error (.apiError (errMsg "note" p.name m)),
          tr1 ++ [.hookCall "take_note" p.name true])) ∧
    (∀ env cfg p rest st m,
      env.strict = false →
      p.take_note cfg st.alert st.text = .error (.generic m) →
      noteLoop env cfg (p :: rest) st =
        ((noteLoop env cfg rest st).1,
          [.hookCall "take_note" p.name true,
           .logError (errMsg "note" p.name m)] ++ (noteLoop env cfg rest st).2)) ∧
    (∀ env a s tx ps1 p ps2 st1 tr1 m,
      env.strict = true →
      (env.routing a).1 = ps1 ++ p :: ps2 →
      statusLoop env (env.routing a).2 ps1 ⟨a, s, tx, false⟩ = (.ok st1, tr1) →
      st1.alert.is_suppressed = false →
      p.status_change_cfg (env.routing a).2 st1.alert st1.status st1.text
        = .error (.generic m) →
      process_status env a s tx =
        (.error (.apiError (errMsg "status" p.name m)),
          tr1 ++ [.hookCall "status_change" p.name true])) ∧
    (∀ env cfg p rest st m,
      env.strict = false →
      st.alert.is_suppressed = false →
      p.status_change_cfg cfg st.alert st.status st.text = .error (.generic m) →
      statusLoop env cfg (p :: rest) st =
        ((statusLoop env cfg rest st).1,
          [.hookCall "status_change" p.name true,
           .logError (errMsg "status" p.name m)] ++ (statusLoop env cfg rest st).2)) ∧
    (∀ env a ps1 p ps2 tr1 m,
      env.strict = true →
      (env.routing a).1 = ps1 ++ p :: ps2 →
      deleteLoop env (env.routing a).2 a ps1 true = (.ok true, tr1) →
      p.delete (env.routing a).2 a = .error (.generic m) →
      process_delete env a =
        (.error (.apiError (errMsg "delete" p.name m)),
          tr1 ++ [.hookCall "delete" p.name true])) ∧
    (∀ env cfg a p rest m,
      env.strict = false →
      p.delete cfg a = .error (.generic m) →
      deleteLoop env cfg a (p :: rest) true =
        ((deleteLoop env cfg a rest true).1,
          [.hookCall "delete" p.name true,
           .logError (errMsg "delete" p.name m)] ++ (deleteLoop env cfg a rest true).2)) := by
  refine ⟨?_, ?_, ?_, ?_, ?_, ?_, ?_, ?_, ?_, ?_, ?_, ?_⟩
  · intro env a ps1 p ps2 a1 tr1 m hstrict hroute hpre hsupp hhook
    have hstep : preStep env (env.routing a).2 p a1 =
        (.error (.runtimeError (errMsg "pre-receive" p.name m)),
          [.hookCall "pre_receive" p.name true]) := by
      simp [preStep, hhook, hstrict, excMsg]
    have hhead : preLoop env (env.routing a).2 (p :: ps2) a1 =
        (.error (.runtimeError (errMsg "pre-receive" p.name m)),
          [.hookCall "pre_receive" p.name true]) := by
      simp [preLoop, hsupp, hstep]
    have happ := preLoop_append env (env.routing a).2 ps1 (p :: ps2) a a1 tr1 hpre
    rw [hhead] at happ
    have hfull : preLoop env (env.routing a).2 (env.routing a).1 a =
        (.error (.runtimeError (errMsg "pre-receive" p.name m)),
          tr1 ++ [.hookCall "pre_receive" p.name true]) := by
      rw [hroute]
      exact happ
    exact process_alert_pre_error env a _ _ hfull
  · intro env cfg a p rest m hstrict hsupp hhook
    have hstep : preStep env cfg p a =
        (.ok a, [.hookCall "pre_receive" p.name true,
          .logError (errMsg "pre-receive" p.name m)]) := by
      simp [preStep, hhook, hstrict, excMsg]
    simp [preLoop, hsupp, hstep]
  · intro env cfg a rest upd p m hstrict hhook
    have hstep : postStep env cfg p a =
        (.error (.apiError (errMsg "post-receive" p.name m)),
          [.hookCall "post_receive" p.name true]) := by
      simp [postStep, hhook, hstrict, excMsg]
    simp [postLoop, hstep]
  · intro env cfg a rest upd p m hstrict hhook
    have hstep : postStep env cfg p a =
        (.ok none, [.hookCall "post_receive" p.name true,
          .logError (errMsg "post-receive" p.name m)]) := by
      simp [postStep, hhook, hstrict, excMsg]
    simp [postLoop, hstep]
  · intro env a act tx tmo ps1 p ps2 st1 tr1 m hstrict hroute hloop hsupp hhook
    have hstep : actionStep env (env.routing a).2 p st1 =
        (.error (.apiError (errMsg "action" p.name m)),
          [.hookCall "take_action" p.name true]) := by
      simp [actionStep, hhook, hstrict, excMsg]
    have hhead : actionLoop env (env.routing a).2 (p :: ps2) st1 =
        (.error (.apiError (errMsg "action" p.name m)),
          [.hookCall "take_action" p.name true]) := by
      simp [actionLoop, hsupp, hstep]
    have happ := actionLoop_append env (env.routing a).2 ps1 (p :: ps2)
      ⟨a, act, tx, tmo, false⟩ st1 tr1 hloop
    rw [hhead] at happ
    have hfull : actionLoop env (env.routing a).2 (env.routing a).1
        ⟨a, act, tx, tmo, false⟩ =
        (.error (.apiError (errMsg "action" p.name m)),
          tr1 ++ [.hookCall "take_action" p.name true]) := by
      rw [hroute]
      exact happ
    exact process_action_loop_error env a act tx tmo _ _ hfull
  · intro env cfg p rest st m hstrict hsupp hhook
    have hstep : actionStep env cfg p st =
        (.ok st, [.hookCall "take_action" p.name true,
          .logError (errMsg "action" p.name m)]) := by
      simp [actionStep, hhook, hstrict, excMsg]
    simp [actionLoop, hsupp, hstep]
  · intro env a tx ps1 p ps2 st1 tr1 m hstrict hroute hloop hhook
    have hstep : noteStep env (env.routing a).2 p st1 =
        (.error (.apiError (errMsg "note" p.name m)),
          [.hookCall "take_note" p.name true]) := by
      simp [noteStep, hhook, hstrict, excMsg]
    have hhead : noteLoop env (env.routing a).2 (p :: ps2) st1 =
        (.error (.apiError (errMsg "note" p.name m)),
          [.hookCall "take_note" p.name true]) := by
      simp [noteLoop, hstep]
    have happ := noteLoop_append env (env.routing a).2 ps1 (p :: ps2)
      ⟨a, tx, false⟩ st1 tr1 hloop
    rw [hhead] at happ
    have hfull : noteLoop env (env.routing a).2 (env.routing a).1 ⟨a, tx, false⟩ =
        (.error (.apiError (errMsg "note" p.name m)),
          tr1 ++ [.hookCall "take_note" p.name true]) := by
      rw [hroute]
      exact happ
    exact process_note_loop_error env a tx _ _ hfull
  · intro env cfg p rest st m hstrict hhook
    have hstep : noteStep env cfg p st =
        (.ok st, [.hookCall "take_note" p.name true,
          .logError (errMsg "note" p.name m)]) := by
      simp [noteStep, hhook, hstrict, excMsg]
    simp [noteLoop, hstep]
  · intro env a s tx ps1 p ps2 st1 tr1 m hstrict hroute hloop hsupp hhook
    have hstep : statusStep env (env.routing a).2 p st1 =
        (.error (.apiError (errMsg "status" p.name m)),
          [.hookCall "status_change" p.name true]) := by
      simp [statusStep, hhook, hstrict, excMsg]
    have hhead : statusLoop env (env.routing a).2 (p :: ps2) st1 =
        (.error (.apiError (errMsg "status" p.name m)),
          [.hookCall "status_change" p.name true]) := by
      simp [statusLoop, hsupp, hstep]
    have happ := statusLoop_append env (env.routing a).2 ps1 (p :: ps2)
      ⟨a, s, tx, false⟩ st1 tr1 hloop
    rw [hhead] at happ
    have hfull : statusLoop env (env.routing a).2 (env.routing a).1 ⟨a, s, tx, false⟩ =
        (.error (.apiError (errMsg "status" p.name m)),
          tr1 ++ [.hookCall "status_change" p.name true]) := by
      rw [hroute]
      exact happ
    exact process_status_loop_error env a s tx _ _ hfull
  · intro env cfg p rest st m hstrict hsupp hhook
    have hstep : statusStep env cfg p st =
        (.ok st, [.hookCall "status_change" p.name true,
          .logError (errMsg "status" p.name m)]) := by
      simp [statusStep, hhook, hstrict, excMsg]
    simp [statusLoop, hsupp, hstep]
  · intro env a ps1 p ps2 tr1 m hstrict hroute hloop hhook
    have hstep : deleteStep env (env.routing a).2 p a true =
        (.error (.apiError (errMsg "delete" p.name m)),
          [.hookCall "delete" p.name true]) := by
      simp [deleteStep, hhook, hstrict, excMsg]
    have hhead : deleteLoop env (env.routing a).2 a (p :: ps2) true =
        (.error (.apiError (errMsg "delete" p.name m)),
          [.hookCall "delete" p.name true]) := by
      simp [deleteLoop, hstep]
    have happ := deleteLoop_append env (env.routing a).2 a ps1 (p :: ps2)
      true true tr1 hloop
    rw [hhead] at happ
    have hfull : deleteLoop env (env.routing a).2 a (env.routing a).1 true =
        (.error (.apiError (errMsg "delete" p.name m)),
          tr1 ++ [.hookCall "delete" p.name true]) := by
      rw [hroute]
      exact happ
    exact process_delete_loop_error env a _ _ hfull
  · intro env cfg a p rest m hstrict hhook
    have hstep : deleteStep env cfg p a true =
        (.ok true, [.hookCall "delete" p.name true,
          .logError (errMsg "delete" p.name m)]) := by
      simp [deleteStep, hhook, hstrict, excMsg]
    simp [deleteLoop, hstep]

def pActGen : Plugin :=
  { basePlugin "pg" with take_action := fun _ _ _ _ _ => .error (.generic "boom") }

def envC4s : Env := { baseEnv with routing := fun _ => ([pActGen], cfg0) }

def envC4l : Env := { envC4s with strict := false }

theorem c4_witness :
    process_action envC4s alertA "ack" "t" none =
      (.error (.apiError (errMsg "action" "pg" "boom")),
        [.hookCall "take_action" "pg" true]) ∧
    actionLoop envC4l cfg0 [pActGen, basePlugin "pz"] ⟨alertA, "ack", "t", none, false⟩ =
      ((actionLoop envC4l cfg0 [basePlugin "pz"] ⟨alertA, "ack", "t", none, false⟩).1,
        [.hookCall "take_action" "pg" true, .logError (errMsg "action" "pg" "boom")]
          ++ (actionLoop envC4l cfg0 [basePlugin "pz"]
                ⟨alertA, "ack", "t", none, false⟩).2) := by
  constructor
  · exact c4_generic_fault_policy.2.2.2.2.1 envC4s alertA "ack" "t" none [] pActGen []
      ⟨alertA, "ack", "t", none, false⟩ [] "boom" rfl rfl rfl rfl rfl
  · exact c4_generic_fault_policy.2.2.2.2.2.1 envC4l cfg0 pActGen [basePlugin "pz"]
      ⟨alertA, "ack", "t", none, false⟩ "boom" rfl rfl rfl

/-- C10: when the mutated flag is set at loop exit, the note pipeline calls
`update_attributes` but discards its return value — the returned alert is
the loop's alert verbatim, its attributes field untouched — whereas the
receive, action, and status pipelines reassign the alert's attributes from
the value `update_attributes` returns. -/
theorem c10_attributes_resync :
    (∀ env a tx st tr,
      noteLoop env (env.routing a).2 (env.routing a).1 ⟨a, tx, false⟩ = (.ok st, tr) →
      st.updated = true →
      process_note env a tx =
        (.ok (st.alert, st.text), tr ++ [.updateTagsOp, .updateAttributesOp])) ∧
    (∀ env a act tx tmo st tr,
      actionLoop env (env.routing a).2 (env.routing a).1 ⟨a, act, tx, tmo, false⟩
        = (.ok st, tr) →
      st.updated = true →
      process_action env a act tx tmo =
        (.ok ({ st.alert with
            attributes := env.update_attributes st.alert st.alert.attributes },
            st.action, st.text, st.timeout),
          tr ++ [.updateTagsOp, .updateAttributesOp])) ∧
    (∀ env a s tx st tr,
      statusLoop env (env.routing a).2 (env.routing a).1 ⟨a, s, tx, false⟩
        = (.ok st, tr) →
      st.updated = true →
      process_status env a s tx =
        (.ok ({ st.alert with
            attributes := env.update_attributes st.alert st.alert.attributes },
            st.status, st.text),
          tr ++ [.updateTagsOp, .updateAttributesOp])) ∧
    (∀ env a a1 skip tr1 a2 tr2 a3 tr3,
      preLoop env (env.routing a).2 (env.routing a).1 a = (.ok (a1, skip), tr1) →
      lifecycle env a1 = (.ok a2, tr2) →
      postLoop env (env.routing a2).2 skip (env.routing a2).1 a2 false
        = (.ok (a3, true), tr3) →
      process_alert env a =
        (.ok { a3 with attributes := env.update_attributes a3 a3.attributes },
          tr1 ++ tr2 ++ tr3 ++ [.updateTagsOp, .updateAttributesOp])) := by
  refine ⟨?_, ?_, ?_, ?_⟩
  · intro env a tx st tr h hupd
    simp [process_note, h, hupd]
  · intro env a act tx tmo st tr h hupd
    simp [process_action, h, hupd]
  · intro env a s tx st tr h hupd
    simp [process_status, h, hupd]
  · intro env a a1 skip tr1 a2 tr2 a3 tr3 hpre hlife hpost
    simp [process_alert, hpre, hlife, hpost]

def pNoteMut : Plugin :=
  { basePlugin "pm" with take_note := fun _ _ _ => .ok (.tuple2 alertB "hi") }

def envC10 : Env :=
  { baseEnv with
      routing := fun _ => ([pNoteMut], cfg0),
      update_attributes := fun _ _ => [("new", "val")] }

def pActMut : Plugin :=
  { basePlugin "pa" with take_action := fun _ _ _ _ _ => .ok (.alertRet alertB) }

def envC10a : Env :=
  { baseEnv with
      routing := fun _ => ([pActMut], cfg0),
      update_attributes := fun _ _ => [("new", "val")] }

theorem c10_witness :
    process_note envC10 alertA "n" =
      (.ok (alertB, "hi"),
        [.hookCall "take_note" "pm" true, .updateTagsOp, .updateAttributesOp]) ∧
    process_action envC10a alertA "ack" "t" none =
      (.ok ({ alertB with attributes := [("new", "val")] }, "ack", "t", none),
        [.hookCall "take_action" "pa" true, .updateTagsOp, .updateAttributesOp]) := by
  constructor
  · exact c10_attributes_resync.1 envC10 alertA "n" ⟨alertB, "hi", true⟩
      [.hookCall "take_note" "pm" true] rfl rfl
  · exact c10_attributes_resync.2.1 envC10a alertA "ack" "t" none
      ⟨alertB, "ack", "t", none, true⟩ [.hookCall "take_action" "pa" true] rfl rfl

end Alerta
